import Mathlib

/-!
# mermaid-server: the `/generate` HTTP handler (`internal/http.go`)

A shallow embedding of the request-to-render pipeline of `internal/http.go`
and of the Go standard-library functions it calls, followed by the theorems
that settle the specification's claims about it.

Go strings and byte slices are byte sequences; they are modelled as lists of
byte values (`List Nat`).
-/

set_option autoImplicit false

/-- A Go `string` (equally a `[]byte`): its sequence of byte values. -/
abbrev GoString := List Nat

/-- The bytes of an ASCII string literal. -/
def lit (s : String) : GoString := s.toList.map Char.toNat

deriving instance DecidableEq for Except

/-! ## `net/url` -/

namespace url

/-- Hexadecimal digit test, `ishex` of `net/url`. -/
def ishex (c : Nat) : Bool :=
  (48 ≤ c && c ≤ 57) || (97 ≤ c && c ≤ 102) || (65 ≤ c && c ≤ 70)

/-- Value of a hexadecimal digit, `unhex` of `net/url`. -/
def unhex (c : Nat) : Nat :=
  if 48 ≤ c ∧ c ≤ 57 then c - 48
  else if 97 ≤ c ∧ c ≤ 102 then c - 97 + 10
  else if 65 ≤ c ∧ c ≤ 70 then c - 65 + 10
  else 0

/-- The function `url.QueryUnescape`, that is `unescape(s, encodeQueryComponent)`:
every `%XY` becomes the byte with hexadecimal value `XY`, every `+` becomes a
space, every other byte is kept. A `%` that is not followed by two hexadecimal
digits makes the call fail with `EscapeError` holding the at most three bytes
starting at that `%`; the error is returned as `Except.error`. Go validates
in a first pass and decodes in a second one; the result is the same as that of
this single pass, which fails at the first malformed `%`. -/
def QueryUnescape : GoString → Except GoString GoString
  | [] => .ok []
  | c :: rest =>
    if c = 37 then -- '%'
      match rest with
      | a :: b :: rest2 =>
        if ishex a && ishex b then
          match QueryUnescape rest2 with
          | .ok t => .ok ((unhex a * 16 + unhex b) :: t)
          | .error e => .error e
        else .error [c, a, b]
      | _ => .error (c :: rest)
    else if c = 43 then -- '+'
      match QueryUnescape rest with
      | .ok t => .ok (32 :: t)
      | .error e => .error e
    else
      match QueryUnescape rest with
      | .ok t => .ok (c :: t)
      | .error e => .error e

/-- The method `Error()` of `url.EscapeError`, the error of `QueryUnescape`:
`"invalid URL escape " + strconv.Quote(string(e))`, with `strconv.Quote` given
as `quote`. -/
def EscapeError.Error (quote : GoString → GoString) (e : GoString) : GoString :=
  lit "invalid URL escape " ++ quote e

/-- The successive segments that repeated `strings.Cut(query, sep)` yields. -/
def segments (sep : Nat) : GoString → List GoString
  | [] => [[]]
  | c :: rest =>
    if c = sep then [] :: segments sep rest
    else
      match segments sep rest with
      | seg :: segs => (c :: seg) :: segs
      | [] => [[c]]

/-- The function `strings.Cut(s, sep)` for a one-byte separator: the text before
the first separator and the text after it (empty when there is none). -/
def cut (sep : Nat) : GoString → GoString × GoString
  | [] => ([], [])
  | c :: rest =>
    if c = sep then ([], rest)
    else ((cut sep rest).1.cons c, (cut sep rest).2)

/-- The type `url.Values` (`map[string][]string`), kept as the list of
key/value pairs in the order `ParseQuery` appended them. -/
abbrev Values := List (GoString × GoString)

/-- One iteration of the loop of `url.parseQuery` on the segment `key`: a
segment holding `;`, an empty segment, and a segment whose key or value does
not unescape are skipped; otherwise the decoded pair is appended. -/
def parsePair (m : Values) (key : GoString) : Values :=
  if key.contains 59 then m -- ';'
  else if key = [] then m
  else
    match QueryUnescape (cut 61 key).1, QueryUnescape (cut 61 key).2 with -- '='
    | .ok k, .ok v => m ++ [(k, v)]
    | _, _ => m

/-- The function `url.ParseQuery` with its error dropped, as `URL.Query` uses it. -/
def ParseQuery (query : GoString) : Values :=
  (segments 38 query).foldl parsePair [] -- '&'

/-- The method `Values.Get`: the first value stored under `key`, or `""`. -/
def Values.Get (v : Values) (key : GoString) : GoString :=
  match v.find? (fun p => p.1 == key) with
  | some p => p.2
  | none => []

/-- Whether `key` is present in the values (`_, ok := v[key]`). -/
def Values.Has (v : Values) (key : GoString) : Bool :=
  v.any (fun p => p.1 == key)

end url

/-! ## `unicode`, `strings`, `strconv` -/

namespace unicode

/-- The UTF-8 encodings of the runes for which `unicode.IsSpace` holds:
`\t \n \v \f \r`, space, U+0085, U+00A0, U+1680, U+2000..U+200A, U+2028,
U+2029, U+202F, U+205F and U+3000. -/
def spaceEncodings : List GoString :=
  [[0x09], [0x0A], [0x0B], [0x0C], [0x0D], [0x20],
   [0xC2, 0x85], [0xC2, 0xA0], [0xE1, 0x9A, 0x80],
   [0xE2, 0x80, 0x80], [0xE2, 0x80, 0x81], [0xE2, 0x80, 0x82], [0xE2, 0x80, 0x83],
   [0xE2, 0x80, 0x84], [0xE2, 0x80, 0x85], [0xE2, 0x80, 0x86], [0xE2, 0x80, 0x87],
   [0xE2, 0x80, 0x88], [0xE2, 0x80, 0x89], [0xE2, 0x80, 0x8A],
   [0xE2, 0x80, 0xA8], [0xE2, 0x80, 0xA9], [0xE2, 0x80, 0xAF],
   [0xE2, 0x81, 0x9F], [0xE3, 0x80, 0x80]]

end unicode

namespace strings

/-- The encoding of the white-space rune that `s` starts with, if the first
rune of `s` (as `utf8.DecodeRuneInString` decodes it) is white space. -/
def leadingSpace (s : GoString) : Option GoString :=
  unicode.spaceEncodings.find? (fun e => e.isPrefixOf s)

/-- The encoding of the white-space rune that `s` ends with, if the last rune
of `s` (as `utf8.DecodeLastRuneInString` decodes it) is white space. -/
def trailingSpace (s : GoString) : Option GoString :=
  unicode.spaceEncodings.find? (fun e => e.isSuffixOf s)

/-- The loop of `strings.TrimLeftFunc(s, unicode.IsSpace)`: leading white-space
runes are removed one at a time; `fuel` bounds the number of runes removed. -/
def trimLeftLoop : Nat → GoString → GoString
  | 0, s => s
  | fuel + 1, s =>
    match leadingSpace s with
    | none => s
    | some e => trimLeftLoop fuel (s.drop e.length)

/-- The loop of `strings.TrimRightFunc(s, unicode.IsSpace)`: trailing white-space
runes are removed one at a time; `fuel` bounds the number of runes removed. -/
def trimRightLoop : Nat → GoString → GoString
  | 0, s => s
  | fuel + 1, s =>
    match trailingSpace s with
    | none => s
    | some e => trimRightLoop fuel (s.take (s.length - e.length))

/-- The function `strings.TrimSpace`: `s` without its leading and trailing
Unicode white space. A string has at most as many runes as bytes, so its
length is enough fuel for either loop. -/
def TrimSpace (s : GoString) : GoString :=
  trimRightLoop s.length (trimLeftLoop s.length s)

end strings

namespace strconv

/-- The value of a run of ASCII decimal digits accumulated onto `n`, or `none`
when a byte is not a digit. -/
def digitsValue : GoString → Nat → Option Nat
  | [], n => some n
  | c :: rest, n => if 48 ≤ c ∧ c ≤ 57 then digitsValue rest (n * 10 + (c - 48)) else none

/-- The signed value of a sign flag and a magnitude when it fits a 64-bit `int`. -/
def inRange (neg : Bool) (n : Nat) : Option Int :=
  if neg then (if n ≤ 2 ^ 63 then some (-(n : Int)) else none)
  else (if n < 2 ^ 63 then some (n : Int) else none)

/-- The digits after the optional sign: at least one, all decimal. -/
def parseMagnitude (neg : Bool) (digits : GoString) : Option Int :=
  if digits = [] then none
  else
    match digitsValue digits 0 with
    | none => none
    | some n => inRange neg n

/-- The function `strconv.Atoi` on a platform whose `int` has 64 bits: an
optional `+` or `-`, then one or more decimal digits, the value within the
range of `int`. The result is `none` when Go returns a non-nil error (the
handler only tests `err != nil`). -/
def Atoi (s : GoString) : Option Int :=
  match s with
  | 45 :: digits => parseMagnitude true digits -- '-'
  | 43 :: digits => parseMagnitude false digits -- '+'
  | _ => parseMagnitude false s

end strconv

/-! ## Errors, `encoding/json`, `net/http` -/

/-- The Go `error` values that this file builds with `fmt.Errorf`:
`*errors.errorString` (a format without `%w`) and `*fmt.wrapError` (a format
with `%w`), each with the formatted message. The wrapped error is reachable
only through `errors.Unwrap`, which this program never calls. Errors that
come from outside (generator, body, file system, response) are used through
their `Error()` text only and are carried as that text. -/
inductive GoError where
  | errorString (s : GoString)
  | wrapError (msg : GoString)
deriving DecidableEq

/-- The method `Error()` of both error types: the message. -/
def GoError.Error : GoError → GoString
  | .errorString s => s
  | .wrapError msg => msg

/-- The value `map[string]interface{}{"error": err}` that `writeErr` passes to `writeJSON`. -/
structure ErrorMap where
  error : GoError
deriving DecidableEq

namespace json

/-- How `encoding/json` encodes an `error` interface holding `*errors.errorString`
or `*fmt.wrapError`: neither type implements `json.Marshaler` or
`encoding.TextMarshaler`, both are pointers to structs all of whose fields are
unexported, so the encoding is that of a struct without fields, `{}`. -/
def encodeError : GoError → GoString
  | .errorString _ => lit "\x7b\x7d"
  | .wrapError _ => lit "\x7b\x7d"

/-- The function `json.Marshal` on the one-entry map of `writeErr`: an object with
the key `"error"` and the encoding of the error value. It never fails here. -/
def Marshal (value : ErrorMap) : Except GoString GoString :=
  .ok (lit "\x7b\"error\":" ++ encodeError value.error ++ lit "\x7d")

end json

namespace http

/-- An `http.ResponseWriter` as the handler drives it. `header` is the map that
`Header()` returns; `status` and `sent` are the status code and the headers
that the first `WriteHeader` put on the wire; `body` holds the bytes written;
`writeFailure` is the error text that `Write` returns on this connection
(`none`: writes succeed). -/
structure ResponseWriter where
  header : List (GoString × GoString)
  status : Option Nat
  sent : List (GoString × GoString)
  body : GoString
  writeFailure : Option GoString
deriving DecidableEq

/-- The call `rw.Header().Set(key, value)`. -/
def ResponseWriter.SetHeader (rw : ResponseWriter) (key value : GoString) : ResponseWriter :=
  { rw with header := (key, value) :: rw.header.filter (fun p => p.1 != key) }

/-- The call `rw.WriteHeader(status)`: the first call sends the status line and
the current headers, a later call is ignored. -/
def ResponseWriter.WriteHeader (rw : ResponseWriter) (status : Nat) : ResponseWriter :=
  match rw.status with
  | some _ => rw
  | none => { rw with status := some status, sent := rw.header }

/-- The call `rw.Write(data)`: sends the header with status 200 when none was sent
yet, then appends `data` to the body or returns the connection's write error. -/
def ResponseWriter.Write (rw : ResponseWriter) (data : GoString) :
    ResponseWriter × Option GoString :=
  match (rw.WriteHeader 200).writeFailure with
  | some err => (rw.WriteHeader 200, some err)
  | none => ({ rw.WriteHeader 200 with body := (rw.WriteHeader 200).body ++ data }, none)

/-- The value of a header as sent on the wire. -/
def ResponseWriter.sentHeader (rw : ResponseWriter) (key : GoString) : Option GoString :=
  (rw.sent.find? (fun p => p.1 == key)).map (fun p => p.2)

/-- The function `http.Error(w, error, code)`: plain-text content type, the
`nosniff` option, the status, then the message and a newline; the result
of the write is ignored. -/
def Error (rw : ResponseWriter) (error : GoString) (code : Nat) : ResponseWriter :=
  (((rw.SetHeader (lit "Content-Type") (lit "text/plain; charset=utf-8")).SetHeader
      (lit "X-Content-Type-Options") (lit "nosniff")).WriteHeader code).Write
    (error ++ [10]) |>.1

end http

open http (ResponseWriter)

/-! ## `internal/http.go` -/

/-- Modelled from the spec: the descriptor type `Diagram`, declared outside the
given source. The spec's data model gives it the description bytes, the
requested image type, the scale and the output path; `http.go` uses the fields
`scale` (assigned a string) and `Output`. -/
structure Diagram where
  description : GoString
  imgType : GoString
  scale : GoString
  Output : GoString
deriving DecidableEq

/-- Modelled from the spec: the constructor `NewDiagram(description, imgType)`,
defined outside the given source. The spec describes the descriptor as a value
"bundling description bytes, requested image type, and scale"; the scale is
assigned by the handler and the output path is reported by the generator, so
both start as Go zero values. The result is a non-nil pointer. -/
def NewDiagram (description : GoString) (imgType : GoString) : Option Diagram :=
  some { description := description, imgType := imgType, scale := [], Output := [] }

/-- An incoming `*http.Request` as far as the handler reads it: the method, the
raw query of the URL, and what `ioutil.ReadAll(r.Body)` returns (the body
bytes, or the text of the read error). -/
structure Request where
  Method : GoString
  RawQuery : GoString
  Body : Except GoString GoString

/-- The call `r.URL.Query()`. -/
def Request.Query (r : Request) : url.Values := url.ParseQuery r.RawQuery

/-- What surrounds the handler: the `Generator` capability (`Generate` receives a
pointer, so it returns the descriptor as it left it and the text of its error,
if any), `ioutil.ReadFile` on the file system as it is after generation, and
`strconv.Quote`, which `url.EscapeError.Error` uses to render the bad escape. -/
structure Env where
  Generate : Diagram → Diagram × Option GoString
  ReadFile : GoString → Except GoString GoString
  Quote : GoString → GoString

/-- Everything observable of one run of the handler: the response writer, the
lines given to `log.Printf`, the descriptors passed to `Generate`, the paths
passed to `ioutil.ReadFile`, and the message of a `panic`, in order. -/
structure Outcome where
  rw : ResponseWriter
  log : List GoString
  generated : List Diagram
  read : List GoString
  panicked : Option GoString

/-- Function `writeJSON`. -/
def writeJSON (rw : ResponseWriter) (value : ErrorMap) (status : Nat) :
    ResponseWriter × Option GoString :=
  match json.Marshal value with
  | .error err => (rw, some (lit "could not marshal value: " ++ err))
  | .ok bytes =>
    match ((rw.SetHeader (lit "Content-Type") (lit "application/json")).WriteHeader status).Write bytes with
    | (rw, some err) => (rw, some (lit "could not write bytes to response: " ++ err))
    | (rw, none) => (rw, none)

/-- Function `writeImage`. -/
def writeImage (rw : ResponseWriter) (data : GoString) (status : Nat) (imgType : GoString) :
    ResponseWriter × Option GoError :=
  if imgType = lit "png" then
    match ((rw.SetHeader (lit "Content-Type") (lit "image/png")).WriteHeader status).Write data with
    | (rw, some err) => (rw, some (.wrapError (lit "could not write image bytes: " ++ err)))
    | (rw, none) => (rw, none)
  else if imgType = lit "svg" then
    match ((rw.SetHeader (lit "Content-Type") (lit "image/svg+xml")).WriteHeader status).Write data with
    | (rw, some err) => (rw, some (.wrapError (lit "could not write image bytes: " ++ err)))
    | (rw, none) => (rw, none)
  else (rw, some (.errorString (lit "unhandled image type: " ++ imgType)))

/-- The line that `log.Printf("[%d] %s", status, err)` formats. -/
def logLine (status : Nat) (err : GoError) : GoString :=
  lit "[" ++ lit (toString status) ++ lit "] " ++ err.Error

/-- Function `writeErr`: logs the line, then writes the JSON error response. -/
def writeErr (rw : ResponseWriter) (err : GoError) (status : Nat) : Outcome :=
  { rw := (writeJSON rw { error := err } status).1
    log := [logLine status err]
    generated := []
    read := []
    panicked := (writeJSON rw { error := err } status).2 }

/-- The URL parameter `getDiagramFromGET` uses to look for data. -/
def URLParam : GoString := lit "data"

/-- Function `getDiagramFromGET`; the pair is the returned pointer and error. -/
def getDiagramFromGET (quote : GoString → GoString) (r : Request) (imgType : GoString) :
    Option Diagram × Option GoError :=
  if r.Method ≠ lit "GET" then
    (none, some (.errorString (lit "expected HTTP method GET")))
  else if strings.TrimSpace (r.Query.Get URLParam) = [] then
    (none, some (.errorString (lit "missing data")))
  else
    match url.QueryUnescape (strings.TrimSpace (r.Query.Get URLParam)) with
    | .error err =>
      (none, some (.errorString (lit "could not read query param: " ++ url.EscapeError.Error quote err)))
    | .ok data => (NewDiagram data imgType, none)

/-- Function `getDiagramFromPOST`; the pair is the returned pointer and error. -/
def getDiagramFromPOST (r : Request) (imgType : GoString) : Option Diagram × Option GoError :=
  if r.Method ≠ lit "POST" then
    (none, some (.errorString (lit "expected HTTP method POST")))
  else
    match r.Body with
    | .error err => (none, some (.errorString (lit "could not read body: " ++ err)))
    | .ok bytes => (NewDiagram bytes imgType, none)

/-- The URL parameter of the image type. -/
def URLParamImageType : GoString := lit "type"

/-- The URL parameter of the scale. -/
def URLParamImageScale : GoString := lit "scale"

/-- The end of `generateHTTPHandler` (lines 173 to 188): generate the diagram,
read the artifact at `diagram.Output`, write it as an image. -/
def generateAndServe (env : Env) (rw : ResponseWriter) (imgType : GoString)
    (diagram : Diagram) : Outcome :=
  match env.Generate diagram with
  | (_, some err) =>
    { writeErr rw (.errorString (lit "could not generate diagram: " ++ err)) 500 with
      generated := [diagram] }
  | (diagram1, none) =>
    match env.ReadFile diagram1.Output with
    | .error err =>
      { writeErr rw (.errorString (lit "could not read diagram bytes: " ++ err)) 500 with
        generated := [diagram], read := [diagram1.Output] }
    | .ok diagramBytes =>
      match writeImage rw diagramBytes 200 imgType with
      | (rw1, some err) =>
        { writeErr rw1 (.wrapError (lit "could not write diagram: " ++ err.Error)) 500 with
          generated := [diagram], read := [diagram1.Output] }
      | (rw1, none) =>
        { rw := rw1, log := [], generated := [diagram], read := [diagram1.Output],
          panicked := none }

/-- The text of the invalid-scale reply. -/
def invalidScaleMessage : GoString :=
  lit "Invalid scale parameter. It must be a number between 1 and 100."

/-- The scale step of `generateHTTPHandler` (lines 160 to 171) and what follows
it: the scale defaults to `"10"`; a non-empty `scale` parameter must be an
integer from 1 to 100 and then replaces the default as the string it is. -/
def applyScale (env : Env) (rw : ResponseWriter) (r : Request) (imgType : GoString)
    (diagram : Diagram) : Outcome :=
  if r.Query.Get URLParamImageScale ≠ [] then
    match strconv.Atoi (r.Query.Get URLParamImageScale) with
    | none =>
      { rw := http.Error rw invalidScaleMessage 400, log := [], generated := [], read := [],
        panicked := none }
    | some scale =>
      if scale < 1 ∨ scale > 100 then
        { rw := http.Error rw invalidScaleMessage 400, log := [], generated := [], read := [],
          panicked := none }
      else
        generateAndServe env rw imgType { diagram with scale := r.Query.Get URLParamImageScale }
  else generateAndServe env rw imgType { diagram with scale := lit "10" }

/-- The checks of `generateHTTPHandler` on what the extraction returned (lines
151 to 158), and what follows them. -/
def checkExtracted (env : Env) (rw : ResponseWriter) (r : Request) (imgType : GoString)
    (extracted : Option Diagram × Option GoError) : Outcome :=
  match extracted with
  | (_, some err) => writeErr rw err 400
  | (none, none) => writeErr rw (.errorString (lit "could not create diagram")) 500
  | (some diagram, none) => applyScale env rw r imgType diagram

/-- The method switch of `generateHTTPHandler` (lines 142 to 150): what the
extraction function of the method returns, or `none` for a method that is
neither GET nor POST. -/
def extractDiagram (quote : GoString → GoString) (r : Request) (imgType : GoString) :
    Option (Option Diagram × Option GoError) :=
  if r.Method = lit "GET" then some (getDiagramFromGET quote r imgType)
  else if r.Method = lit "POST" then some (getDiagramFromPOST r imgType)
  else none

/-- The part of `generateHTTPHandler` after the image type is settled (lines 141
to 188). -/
def dispatchMethod (env : Env) (rw : ResponseWriter) (r : Request) (imgType : GoString) :
    Outcome :=
  match extractDiagram env.Quote r imgType with
  | some extracted => checkExtracted env rw r imgType extracted
  | none => writeErr rw (.errorString (lit "unexpected HTTP method " ++ r.Method)) 400

/-- The switch of `generateHTTPHandler` on the image type (lines 132 to 139):
`png` and `svg` are kept, the empty value becomes `svg`, and any other value
is unsupported (`none`). -/
def selectImageType (imgType : GoString) : Option GoString :=
  if imgType = lit "png" ∨ imgType = lit "svg" then some imgType
  else if imgType = [] then some (lit "svg")
  else none

/-- The handler that `generateHTTPHandler(generator)` returns, run on a response
writer and a request. -/
def generateHTTPHandler (env : Env) (rw : ResponseWriter) (r : Request) : Outcome :=
  match selectImageType (r.Query.Get URLParamImageType) with
  | some imgType => dispatchMethod env rw r imgType
  | none =>
    writeErr rw
      (.errorString (lit "unsupported image type (" ++ r.Query.Get URLParamImageType ++
        lit ") use svg or png")) 400

/-- A string that consists of white-space runes only (possibly none): a
concatenation of UTF-8 encodings of runes for which `unicode.IsSpace` holds. -/
inductive WhitespaceOnly : GoString → Prop where
  | nil : WhitespaceOnly []
  | cons (e rest : GoString) : e ∈ unicode.spaceEncodings → WhitespaceOnly rest →
      WhitespaceOnly (e ++ rest)

/-! ## Sample requests and surroundings for the concrete evaluations -/

/-- A response writer on which nothing was set or sent and whose writes succeed. -/
def freshWriter : ResponseWriter :=
  { header := [], status := none, sent := [], body := [], writeFailure := none }

/-- A generator stub that reports the output path `out.img` and succeeds,
with a file system whose every file holds the bytes `IMG`. -/
def stubEnv : Env :=
  { Generate := fun d => ({ d with Output := lit "out.img" }, none)
    ReadFile := fun _ => .ok (lit "IMG")
    Quote := fun s => [34] ++ s ++ [34] }

/-- A generator stub that always fails with the error text `boom`. -/
def failingEnv : Env :=
  { Generate := fun d => (d, some (lit "boom"))
    ReadFile := fun _ => .ok (lit "IMG")
    Quote := fun s => [34] ++ s ++ [34] }

/-- The request `GET /generate?data=100%25`. -/
def percentRequest : Request :=
  { Method := lit "GET", RawQuery := lit "data=100%25", Body := .ok [] }

/-- The request `GET /generate?data=a%2Bb`. -/
def plusRequest : Request :=
  { Method := lit "GET", RawQuery := lit "data=a%2Bb", Body := .ok [] }

/-- The request `GET /generate?type=png`, without a `data` parameter. -/
def noDataRequest : Request :=
  { Method := lit "GET", RawQuery := lit "type=png", Body := .ok [] }

/-- The request `GET /generate?data=%20%09`, whose data is white space only. -/
def blankDataRequest : Request :=
  { Method := lit "GET", RawQuery := lit "data=%20%09", Body := .ok [] }

/-- The request `GET /generate?data=a&type=gif`. -/
def gifRequest : Request :=
  { Method := lit "GET", RawQuery := lit "data=a&type=gif", Body := .ok [] }

/-- The request `PUT /generate`. -/
def putRequest : Request :=
  { Method := lit "PUT", RawQuery := [], Body := .ok (lit "a") }

/-- The request `GET /generate?data=%25zz`: the decoded value `%zz` is not a valid
escaping. -/
def badEscapeRequest : Request :=
  { Method := lit "GET", RawQuery := lit "data=%25zz", Body := .ok [] }

/-- A `POST /generate` whose body cannot be read. -/
def brokenBodyPost : Request :=
  { Method := lit "POST", RawQuery := [], Body := .error (lit "unexpected EOF") }

/-- A generator stub that succeeds, with a file system on which no file can be
read. -/
def unreadableEnv : Env :=
  { Generate := fun d => ({ d with Output := lit "out.img" }, none)
    ReadFile := fun _ => .error (lit "open out.img: no such file or directory")
    Quote := fun s => [34] ++ s ++ [34] }

/-- The request `GET /generate?data=a&scale=`. -/
def emptyScaleRequest : Request :=
  { Method := lit "GET", RawQuery := lit "data=a&scale=", Body := .ok [] }

/-- The request `GET /generate?data=a&scale=0`. -/
def invalidScaleRequest : Request :=
  { Method := lit "GET", RawQuery := lit "data=a&scale=0", Body := .ok [] }

/-- The request `GET /generate?data=a`, to be served with a failing generator. -/
def plainRequest : Request :=
  { Method := lit "GET", RawQuery := lit "data=a", Body := .ok [] }

/-- The request `POST /generate?scale=` with the body `a`. -/
def emptyScalePost : Request :=
  { Method := lit "POST", RawQuery := lit "scale=", Body := .ok (lit "a") }

/-! ## Lemmas on the library models -/

theorem url.Values.Get_of_not_Has (v : url.Values) (key : GoString)
    (h : v.Has key = false) : v.Get key = [] := by
  unfold url.Values.Has at h
  unfold url.Values.Get
  have hfind : v.find? (fun p => p.1 == key) = none := by
    rw [List.find?_eq_none]
    intro p hp
    have := (List.any_eq_false.mp h) p hp
    simpa using this
  rw [hfind]

theorem logLine_400 (err : GoError) : logLine 400 err = lit "[400] " ++ err.Error := by
  have h : lit "[" ++ lit (toString 400) ++ lit "] " = lit "[400] " := by decide
  unfold logLine
  rw [h]

theorem logLine_500 (err : GoError) : logLine 500 err = lit "[500] " ++ err.Error := by
  have h : lit "[" ++ lit (toString 500) ++ lit "] " = lit "[500] " := by decide
  unfold logLine
  rw [h]

theorem http.ResponseWriter.sentHeader_SetHeader_WriteHeader (rw : ResponseWriter)
    (key value : GoString) (status : Nat) (h : rw.status = none) :
    ((rw.SetHeader key value).WriteHeader status).sentHeader key = some value := by
  simp [ResponseWriter.SetHeader, ResponseWriter.WriteHeader, ResponseWriter.sentHeader, h]

theorem http.ResponseWriter.Write_status (rw : ResponseWriter) (data : GoString) (status : Nat)
    (h : rw.status = some status) : (rw.Write data).1.status = some status := by
  unfold ResponseWriter.Write
  split <;> simp [ResponseWriter.WriteHeader, h]

theorem http.ResponseWriter.Write_sent (rw : ResponseWriter) (data : GoString) (status : Nat)
    (h : rw.status = some status) : (rw.Write data).1.sent = rw.sent := by
  unfold ResponseWriter.Write
  split <;> simp [ResponseWriter.WriteHeader, h]

theorem writeErr_status (rw : ResponseWriter) (err : GoError) (status : Nat)
    (h : rw.status = none) : (writeErr rw err status).rw.status = some status := by
  simp only [writeErr, writeJSON, json.Marshal]
  split
  all_goals
    rename_i heq
    have := congrArg (fun p => p.1.status) heq
    simp only at this
    rw [← this]
    apply http.ResponseWriter.Write_status
    simp [ResponseWriter.SetHeader, ResponseWriter.WriteHeader, h]

theorem writeErr_contentType (rw : ResponseWriter) (err : GoError) (status : Nat)
    (h : rw.status = none) :
    (writeErr rw err status).rw.sentHeader (lit "Content-Type") = some (lit "application/json") := by
  simp only [writeErr, writeJSON, json.Marshal]
  split
  all_goals
    rename_i heq
    have := congrArg (fun p => p.1.sent) heq
    simp only at this
    unfold ResponseWriter.sentHeader
    rw [← this]
    rw [http.ResponseWriter.Write_sent _ _ status
      (by simp [ResponseWriter.SetHeader, ResponseWriter.WriteHeader, h])]
    exact http.ResponseWriter.sentHeader_SetHeader_WriteHeader rw _ _ status h

theorem writeErr_log (rw : ResponseWriter) (err : GoError) (status : Nat) :
    (writeErr rw err status).log = [logLine status err] := rfl

theorem writeErr_generated (rw : ResponseWriter) (err : GoError) (status : Nat) :
    (writeErr rw err status).generated = [] := rfl

theorem writeErr_read (rw : ResponseWriter) (err : GoError) (status : Nat) :
    (writeErr rw err status).read = [] := rfl

theorem selectImageType_none (t : GoString) (h1 : t ≠ lit "svg") (h2 : t ≠ lit "png")
    (h3 : t ≠ []) : selectImageType t = none := by
  simp [selectImageType, h1, h2, h3]

theorem url.QueryUnescape_plain (t : GoString) (h : ∀ c ∈ t, c ≠ 37 ∧ c ≠ 43) :
    url.QueryUnescape t = .ok t := by
  induction t with
  | nil => rfl
  | cons c rest ih =>
    have hc := h c (List.mem_cons_self _ _)
    have hrest := ih (fun d hd => h d (List.mem_cons_of_mem _ hd))
    unfold url.QueryUnescape
    simp [hc.1, hc.2, hrest]

theorem strings.leadingSpace_append (e rest : GoString) (he : e ∈ unicode.spaceEncodings) :
    strings.leadingSpace (e ++ rest) = some e := by
  simp only [unicode.spaceEncodings, List.mem_cons, List.mem_singleton, List.not_mem_nil,
    or_false] at he
  rcases he with h | h | h | h | h | h | h | h | h | h | h | h | h | h | h | h | h | h | h | h |
    h | h | h | h | h <;> subst h <;>
    simp [strings.leadingSpace, unicode.spaceEncodings, List.isPrefixOf]

theorem unicode.spaceEncodings_length_pos (e : GoString) (he : e ∈ unicode.spaceEncodings) :
    1 ≤ e.length := by
  simp only [unicode.spaceEncodings, List.mem_cons, List.mem_singleton, List.not_mem_nil,
    or_false] at he
  rcases he with h | h | h | h | h | h | h | h | h | h | h | h | h | h | h | h | h | h | h | h |
    h | h | h | h | h <;> subst h <;> simp

theorem strings.trimLeftLoop_whitespaceOnly (s : GoString) (h : WhitespaceOnly s) :
    ∀ fuel, s.length ≤ fuel → strings.trimLeftLoop fuel s = [] := by
  induction h with
  | nil =>
    intro fuel _
    cases fuel with
    | zero => rfl
    | succ n =>
      have : strings.leadingSpace [] = none := by decide
      simp [strings.trimLeftLoop, this]
  | cons e rest he _ ih =>
    intro fuel hfuel
    have hpos := unicode.spaceEncodings_length_pos e he
    rw [List.length_append] at hfuel
    cases fuel with
    | zero => omega
    | succ n =>
      simp only [strings.trimLeftLoop, strings.leadingSpace_append e rest he, List.drop_left]
      exact ih n (by omega)

theorem strings.TrimSpace_whitespaceOnly (s : GoString) (h : WhitespaceOnly s) :
    strings.TrimSpace s = [] := by
  unfold strings.TrimSpace
  rw [strings.trimLeftLoop_whitespaceOnly s h s.length (le_refl _)]
  cases s.length with
  | zero => rfl
  | succ n =>
    have : strings.trailingSpace [] = none := by decide
    simp [strings.trimRightLoop, this]

/-! ### `strings.TrimSpace` removes exactly the surrounding white space -/

theorem WhitespaceOnly.append (a b : GoString) (ha : WhitespaceOnly a) (hb : WhitespaceOnly b) :
    WhitespaceOnly (a ++ b) := by
  induction ha with
  | nil => exact hb
  | cons e rest he _ ih =>
    rw [List.append_assoc]
    exact WhitespaceOnly.cons e (rest ++ b) he ih

theorem WhitespaceOnly.single (e : GoString) (he : e ∈ unicode.spaceEncodings) :
    WhitespaceOnly e := by
  have h := WhitespaceOnly.cons e [] he WhitespaceOnly.nil
  rwa [List.append_nil] at h

theorem strings.leadingSpace_some (s e : GoString) (h : strings.leadingSpace s = some e) :
    e ∈ unicode.spaceEncodings ∧ s = e ++ s.drop e.length := by
  unfold strings.leadingSpace at h
  refine ⟨List.mem_of_find?_eq_some h, ?_⟩
  have hp := List.find?_some h
  exact (List.prefix_iff_eq_append.mp (List.isPrefixOf_iff_prefix.mp hp)).symm

theorem strings.trailingSpace_some (s e : GoString) (h : strings.trailingSpace s = some e) :
    e ∈ unicode.spaceEncodings ∧ s = s.take (s.length - e.length) ++ e := by
  unfold strings.trailingSpace at h
  refine ⟨List.mem_of_find?_eq_some h, ?_⟩
  have hp := List.find?_some h
  exact (List.suffix_iff_eq_append.mp (List.isSuffixOf_iff_suffix.mp hp)).symm

/-- With fuel for every byte, the left loop stops at a string that does not
start with white space, having removed white space only. -/
theorem strings.trimLeftLoop_spec (fuel : Nat) :
    ∀ s : GoString, s.length ≤ fuel →
      strings.leadingSpace (strings.trimLeftLoop fuel s) = none ∧
      ∃ removed, WhitespaceOnly removed ∧ s = removed ++ strings.trimLeftLoop fuel s := by
  induction fuel with
  | zero =>
    intro s hs
    have hnil : s = [] := List.eq_nil_of_length_eq_zero (Nat.le_zero.mp hs)
    subst hnil
    exact ⟨by decide, [], WhitespaceOnly.nil, rfl⟩
  | succ n ih =>
    intro s hs
    unfold strings.trimLeftLoop
    cases hlead : strings.leadingSpace s with
    | none => exact ⟨hlead, [], WhitespaceOnly.nil, rfl⟩
    | some e =>
      obtain ⟨he, hsplit⟩ := strings.leadingSpace_some s e hlead
      have hpos := unicode.spaceEncodings_length_pos e he
      have hlen : (s.drop e.length).length ≤ n := by
        rw [List.length_drop]
        omega
      obtain ⟨hstop, removed, hws, hrem⟩ := ih (s.drop e.length) hlen
      refine ⟨hstop, e ++ removed, WhitespaceOnly.cons e removed he hws, ?_⟩
      simp only
      rw [List.append_assoc, ← hrem]
      exact hsplit

/-- With fuel for every byte, the right loop stops at a string that does not end
with white space, having removed white space only. -/
theorem strings.trimRightLoop_spec (fuel : Nat) :
    ∀ s : GoString, s.length ≤ fuel →
      strings.trailingSpace (strings.trimRightLoop fuel s) = none ∧
      ∃ removed, WhitespaceOnly removed ∧ s = strings.trimRightLoop fuel s ++ removed := by
  induction fuel with
  | zero =>
    intro s hs
    have hnil : s = [] := List.eq_nil_of_length_eq_zero (Nat.le_zero.mp hs)
    subst hnil
    exact ⟨by decide, [], WhitespaceOnly.nil, rfl⟩
  | succ n ih =>
    intro s hs
    unfold strings.trimRightLoop
    cases htrail : strings.trailingSpace s with
    | none => exact ⟨htrail, [], WhitespaceOnly.nil, (List.append_nil s).symm⟩
    | some e =>
      obtain ⟨he, hsplit⟩ := strings.trailingSpace_some s e htrail
      have hpos := unicode.spaceEncodings_length_pos e he
      have hlen : (s.take (s.length - e.length)).length ≤ n := by
        rw [List.length_take]
        omega
      obtain ⟨hstop, removed, hws, hrem⟩ := ih (s.take (s.length - e.length)) hlen
      refine ⟨hstop, removed ++ e,
        WhitespaceOnly.append removed e hws (WhitespaceOnly.single e he), ?_⟩
      simp only
      rw [← List.append_assoc, ← hrem]
      exact hsplit

/-- The function `strings.TrimSpace` as modelled returns the middle of a split
`s = before ++ TrimSpace s ++ after` in which `before` and `after` are white
space only and the middle neither starts nor ends with a white-space rune: the
fuel of the two loops never runs out. -/
theorem strings.TrimSpace_spec (s : GoString) :
    strings.leadingSpace (strings.TrimSpace s) = none ∧
    strings.trailingSpace (strings.TrimSpace s) = none ∧
    ∃ before after, WhitespaceOnly before ∧ WhitespaceOnly after ∧
      s = before ++ strings.TrimSpace s ++ after := by
  obtain ⟨hlead, before, hwsb, hb⟩ := strings.trimLeftLoop_spec s.length s (le_refl _)
  have hlen : (strings.trimLeftLoop s.length s).length ≤ s.length := by
    have h := congrArg List.length hb
    rw [List.length_append] at h
    omega
  obtain ⟨htrail, after, hwsa, ha⟩ :=
    strings.trimRightLoop_spec s.length (strings.trimLeftLoop s.length s) hlen
  refine ⟨?_, htrail, before, after, hwsb, hwsa, ?_⟩
  · -- a white-space rune at the start of the result would start the left-trimmed string
    unfold strings.leadingSpace at hlead ⊢
    rw [List.find?_eq_none] at hlead ⊢
    intro e he hpre
    apply hlead e he
    have hp : e <+: strings.TrimSpace s := List.isPrefixOf_iff_prefix.mp hpre
    have hq : strings.TrimSpace s <+: strings.trimLeftLoop s.length s := ⟨after, ha.symm⟩
    exact List.isPrefixOf_iff_prefix.mpr (hp.trans hq)
  · show s = before ++ strings.trimRightLoop s.length (strings.trimLeftLoop s.length s) ++ after
    rw [List.append_assoc, ← ha]
    exact hb

/-! ### A query that only holds `data` -/

theorem url.segments_single (sep : Nat) (s : GoString) (h : sep ∉ s) :
    url.segments sep s = [s] := by
  induction s with
  | nil => rfl
  | cons c rest ih =>
    have hc : c ≠ sep := fun hEq => h (hEq ▸ List.mem_cons_self _ _)
    have hrest := ih (fun hmem => h (List.mem_cons_of_mem _ hmem))
    simp [url.segments, hc, hrest]

/-- The raw query `data=<enc>`, with `enc` free of `&` and `;` and a valid
escaping of `s`, is decoded by `Query()` to the single value `s` of `data`. -/
theorem url.ParseQuery_data (enc s : GoString) (hamp : 38 ∉ enc) (hsemi : 59 ∉ enc)
    (hdec : url.QueryUnescape enc = .ok s) :
    (url.ParseQuery (lit "data=" ++ enc)).Get (lit "data") = s := by
  have hlit : lit "data=" = [100, 97, 116, 97, 61] := by decide
  have hdata : lit "data" = [100, 97, 116, 97] := by decide
  have hseg : url.segments 38 (lit "data=" ++ enc) = [lit "data=" ++ enc] := by
    apply url.segments_single
    rw [hlit]
    simp [hamp]
  have hcontains : (lit "data=" ++ enc).contains 59 = false := by
    rw [hlit]
    simp [hsemi]
  have hcut : url.cut 61 (lit "data=" ++ enc) = (lit "data", enc) := by
    rw [hlit, hdata]
    simp [url.cut]
  have hkey : url.QueryUnescape (lit "data") = .ok (lit "data") := by decide
  have hne : lit "data=" ++ enc ≠ [] := by
    rw [hlit]
    simp
  unfold url.ParseQuery
  rw [hseg]
  simp only [List.foldl_cons, List.foldl_nil, url.parsePair, hcontains, hne, hcut, hkey, hdec,
    if_false, Bool.false_eq_true]
  simp [url.Values.Get]

/-! ## Lemmas on the handler -/

theorem generateHTTPHandler_eq_applyScale (env : Env) (rw : ResponseWriter) (r : Request)
    (imgType : GoString) (diagram : Diagram)
    (htype : selectImageType (r.Query.Get URLParamImageType) = some imgType)
    (hextract : extractDiagram env.Quote r imgType = some (some diagram, none)) :
    generateHTTPHandler env rw r = applyScale env rw r imgType diagram := by
  simp [generateHTTPHandler, dispatchMethod, checkExtracted, htype, hextract]

theorem selectImageType_some (t imgType : GoString) (h : selectImageType t = some imgType) :
    (imgType = lit "png" ∨ imgType = lit "svg") ∧
    (t = lit "png" ∧ imgType = lit "png" ∨ (t = lit "svg" ∨ t = []) ∧ imgType = lit "svg") := by
  unfold selectImageType at h
  split at h
  · rename_i hps
    simp only [Option.some.injEq] at h
    subst h
    rcases hps with hp | hs
    · exact ⟨Or.inl hp, Or.inl ⟨hp, hp⟩⟩
    · exact ⟨Or.inr hs, Or.inr ⟨Or.inl hs, hs⟩⟩
  · split at h
    · rename_i he
      simp only [Option.some.injEq] at h
      exact ⟨Or.inr h.symm, Or.inr ⟨Or.inr he, h.symm⟩⟩
    · simp at h

theorem generateAndServe_generated (env : Env) (rw : ResponseWriter) (imgType : GoString)
    (diagram : Diagram) : (generateAndServe env rw imgType diagram).generated = [diagram] := by
  unfold generateAndServe
  split
  · rfl
  · split
    · rfl
    · split <;> rfl

theorem http.Error_status (rw : ResponseWriter) (msg : GoString) (code : Nat)
    (h : rw.status = none) : (http.Error rw msg code).status = some code := by
  unfold http.Error
  apply http.ResponseWriter.Write_status
  simp [ResponseWriter.SetHeader, ResponseWriter.WriteHeader, h]

theorem http.Error_contentType (rw : ResponseWriter) (msg : GoString) (code : Nat)
    (h : rw.status = none) :
    (http.Error rw msg code).sentHeader (lit "Content-Type") =
      some (lit "text/plain; charset=utf-8") := by
  unfold http.Error ResponseWriter.sentHeader
  rw [http.ResponseWriter.Write_sent _ _ code
    (by simp [ResponseWriter.SetHeader, ResponseWriter.WriteHeader, h])]
  have h1 : (lit "X-Content-Type-Options" == lit "Content-Type") = false := by decide
  have h2 : (lit "Content-Type" != lit "X-Content-Type-Options") = true := by decide
  have h3 : (lit "Content-Type" == lit "Content-Type") = true := by decide
  simp only [ResponseWriter.SetHeader, ResponseWriter.WriteHeader, h, List.filter_cons, h2,
    if_true, List.find?_cons, h1, h3, Option.map]

theorem http.Error_body (rw : ResponseWriter) (msg : GoString) (code : Nat)
    (h : rw.writeFailure = none) : (http.Error rw msg code).body = rw.body ++ (msg ++ [10]) := by
  unfold http.Error ResponseWriter.Write
  have hwf : ∀ (w : ResponseWriter) (n : Nat), (w.WriteHeader n).writeFailure = w.writeFailure := by
    intro w n
    unfold ResponseWriter.WriteHeader
    split <;> rfl
  have hbody : ∀ (w : ResponseWriter) (n : Nat), (w.WriteHeader n).body = w.body := by
    intro w n
    unfold ResponseWriter.WriteHeader
    split <;> rfl
  simp [hwf, hbody, ResponseWriter.SetHeader, h]

theorem http.ResponseWriter.WriteHeader_writeFailure (rw : ResponseWriter) (n : Nat) :
    (rw.WriteHeader n).writeFailure = rw.writeFailure := by
  unfold ResponseWriter.WriteHeader
  split <;> rfl

theorem http.ResponseWriter.WriteHeader_body (rw : ResponseWriter) (n : Nat) :
    (rw.WriteHeader n).body = rw.body := by
  unfold ResponseWriter.WriteHeader
  split <;> rfl

theorem http.ResponseWriter.Write_ok (rw : ResponseWriter) (data : GoString)
    (h : rw.writeFailure = none) :
    (rw.Write data).2 = none ∧ (rw.Write data).1.body = rw.body ++ data := by
  unfold ResponseWriter.Write
  simp [http.ResponseWriter.WriteHeader_writeFailure, http.ResponseWriter.WriteHeader_body, h]

theorem writeImage_ok (rw : ResponseWriter) (data imgType mime : GoString)
    (hstatus : rw.status = none) (hwrite : rw.writeFailure = none)
    (hmime : imgType = lit "png" ∧ mime = lit "image/png" ∨
      imgType = lit "svg" ∧ mime = lit "image/svg+xml") :
    (writeImage rw data 200 imgType).2 = none ∧
    (writeImage rw data 200 imgType).1.status = some 200 ∧
    (writeImage rw data 200 imgType).1.sentHeader (lit "Content-Type") = some mime ∧
    (writeImage rw data 200 imgType).1.body = rw.body ++ data := by
  have key : ∀ m : GoString,
      let w := ((rw.SetHeader (lit "Content-Type") m).WriteHeader 200).Write data
      w.2 = none ∧ w.1.status = some 200 ∧ w.1.sentHeader (lit "Content-Type") = some m ∧
        w.1.body = rw.body ++ data := by
    intro m
    have hs : ((rw.SetHeader (lit "Content-Type") m).WriteHeader 200).status = some 200 := by
      simp [ResponseWriter.SetHeader, ResponseWriter.WriteHeader, hstatus]
    have hw : ((rw.SetHeader (lit "Content-Type") m).WriteHeader 200).writeFailure = none := by
      rw [http.ResponseWriter.WriteHeader_writeFailure]
      exact hwrite
    have hok := http.ResponseWriter.Write_ok _ data hw
    refine ⟨hok.1, http.ResponseWriter.Write_status _ _ _ hs, ?_, ?_⟩
    · unfold ResponseWriter.sentHeader
      rw [http.ResponseWriter.Write_sent _ _ 200 hs]
      exact http.ResponseWriter.sentHeader_SetHeader_WriteHeader rw _ _ 200 hstatus
    · rw [hok.2, http.ResponseWriter.WriteHeader_body]
      rfl
  have hsvg : lit "svg" ≠ lit "png" := by decide
  rcases hmime with ⟨hi, hm⟩ | ⟨hi, hm⟩
  · subst hi hm
    have k := key (lit "image/png")
    simp only at k
    unfold writeImage
    simp only [if_true]
    split
    · rename_i heq
      rw [heq] at k
      simp at k
    · rename_i heq
      rw [heq] at k
      exact ⟨rfl, k.2.1, k.2.2.1, k.2.2.2⟩
  · subst hi hm
    have k := key (lit "image/svg+xml")
    simp only at k
    unfold writeImage
    simp only [hsvg, if_false, if_true]
    split
    · rename_i heq
      rw [heq] at k
      simp at k
    · rename_i heq
      rw [heq] at k
      exact ⟨rfl, k.2.1, k.2.2.1, k.2.2.2⟩

theorem generateAndServe_ok (env : Env) (rw : ResponseWriter) (imgType mime : GoString)
    (diagram diagram1 : Diagram) (bytes : GoString)
    (hstatus : rw.status = none) (hwrite : rw.writeFailure = none)
    (hmime : imgType = lit "png" ∧ mime = lit "image/png" ∨
      imgType = lit "svg" ∧ mime = lit "image/svg+xml")
    (hgen : env.Generate diagram = (diagram1, none))
    (hread : env.ReadFile diagram1.Output = .ok bytes) :
    (generateAndServe env rw imgType diagram).rw.status = some 200 ∧
    (generateAndServe env rw imgType diagram).rw.sentHeader (lit "Content-Type") = some mime ∧
    (generateAndServe env rw imgType diagram).rw.body = rw.body ++ bytes ∧
    (generateAndServe env rw imgType diagram).read = [diagram1.Output] ∧
    (generateAndServe env rw imgType diagram).log = [] ∧
    (generateAndServe env rw imgType diagram).panicked = none := by
  have hw := writeImage_ok rw bytes imgType mime hstatus hwrite hmime
  unfold generateAndServe
  simp only [hgen, hread]
  split
  · rename_i heq
    rw [heq] at hw
    simp at hw
  · rename_i heq
    rw [heq] at hw
    exact ⟨hw.2.1, hw.2.2.1, hw.2.2.2, rfl, rfl, rfl⟩

/-- Every run of the handler ends in one of five ways, in the order of its checks. -/
theorem generateHTTPHandler_cases (env : Env) (rw : ResponseWriter) (r : Request) :
    (selectImageType (r.Query.Get URLParamImageType) = none ∧
      generateHTTPHandler env rw r =
        writeErr rw (.errorString (lit "unsupported image type (" ++
          r.Query.Get URLParamImageType ++ lit ") use svg or png")) 400) ∨
    (∃ imgType, selectImageType (r.Query.Get URLParamImageType) = some imgType ∧
      ((extractDiagram env.Quote r imgType = none ∧
          generateHTTPHandler env rw r =
            writeErr rw (.errorString (lit "unexpected HTTP method " ++ r.Method)) 400) ∨
       (∃ d err, extractDiagram env.Quote r imgType = some (d, some err) ∧
          generateHTTPHandler env rw r = writeErr rw err 400) ∨
       (extractDiagram env.Quote r imgType = some (none, none) ∧
          generateHTTPHandler env rw r =
            writeErr rw (.errorString (lit "could not create diagram")) 500) ∨
       (∃ diagram, extractDiagram env.Quote r imgType = some (some diagram, none) ∧
          generateHTTPHandler env rw r = applyScale env rw r imgType diagram))) := by
  unfold generateHTTPHandler
  cases htype : selectImageType (r.Query.Get URLParamImageType) with
  | none => exact Or.inl ⟨rfl, rfl⟩
  | some imgType =>
    refine Or.inr ⟨imgType, rfl, ?_⟩
    simp only [dispatchMethod]
    cases hextract : extractDiagram env.Quote r imgType with
    | none => exact Or.inl ⟨rfl, rfl⟩
    | some extracted =>
      obtain ⟨d, e⟩ := extracted
      cases e with
      | some err => exact Or.inr (Or.inl ⟨d, err, rfl, by cases d <;> rfl⟩)
      | none =>
        cases d with
        | none => exact Or.inr (Or.inr (Or.inl ⟨rfl, rfl⟩))
        | some diagram => exact Or.inr (Or.inr (Or.inr ⟨diagram, rfl, rfl⟩))

/-- The scale step either refuses the request with the plain-text reply or hands
the diagram, with its scale set, to the generation step. -/
theorem applyScale_cases (env : Env) (rw : ResponseWriter) (r : Request) (imgType : GoString)
    (diagram : Diagram) :
    (r.Query.Get URLParamImageScale ≠ [] ∧
      (strconv.Atoi (r.Query.Get URLParamImageScale) = none ∨
        ∃ n, strconv.Atoi (r.Query.Get URLParamImageScale) = some n ∧ (n < 1 ∨ 100 < n)) ∧
      applyScale env rw r imgType diagram =
        { rw := http.Error rw invalidScaleMessage 400, log := [], generated := [], read := [],
          panicked := none }) ∨
    (∃ scale n, strconv.Atoi scale = some n ∧ 1 ≤ n ∧ n ≤ 100 ∧
      (r.Query.Get URLParamImageScale = [] ∧ scale = lit "10" ∨
        r.Query.Get URLParamImageScale ≠ [] ∧ scale = r.Query.Get URLParamImageScale) ∧
      applyScale env rw r imgType diagram =
        generateAndServe env rw imgType { diagram with scale := scale }) := by
  unfold applyScale
  by_cases hempty : r.Query.Get URLParamImageScale = []
  · refine Or.inr ⟨lit "10", 10, by decide, by decide, by decide, Or.inl ⟨hempty, rfl⟩, ?_⟩
    simp only [hempty, ne_eq, not_true_eq_false, if_false]
  · simp only [ne_eq, hempty, not_false_eq_true, if_true]
    cases hatoi : strconv.Atoi (r.Query.Get URLParamImageScale) with
    | none => exact Or.inl ⟨trivial, Or.inl rfl, rfl⟩
    | some n =>
      by_cases hrange : n < 1 ∨ n > 100
      · refine Or.inl ⟨trivial, Or.inr ⟨n, rfl, hrange⟩, ?_⟩
        simp only [hrange, if_true]
      · refine Or.inr ⟨r.Query.Get URLParamImageScale, n, hatoi, by omega, by omega,
          Or.inr ⟨trivial, rfl⟩, ?_⟩
        simp only [hrange, if_false]

theorem writeErr_status_of_sent (rw : ResponseWriter) (err : GoError) (status sent : Nat)
    (h : rw.status = some sent) :
    (writeErr rw err status).rw.status = some sent ∧ (writeErr rw err status).rw.sent = rw.sent := by
  have hs : ((rw.SetHeader (lit "Content-Type") (lit "application/json")).WriteHeader
      status).status = some sent := by
    simp [ResponseWriter.SetHeader, ResponseWriter.WriteHeader, h]
  have hsent : ((rw.SetHeader (lit "Content-Type") (lit "application/json")).WriteHeader
      status).sent = rw.sent := by
    simp [ResponseWriter.SetHeader, ResponseWriter.WriteHeader, h]
  simp only [writeErr, writeJSON, json.Marshal]
  split
  all_goals
    rename_i heq
    have h1 := congrArg (fun p => p.1.status) heq
    have h2 := congrArg (fun p => p.1.sent) heq
    simp only at h1 h2
    rw [← h1, ← h2]
    exact ⟨http.ResponseWriter.Write_status _ _ _ hs,
      (http.ResponseWriter.Write_sent _ _ _ hs).trans hsent⟩

theorem writeImage_cases (rw : ResponseWriter) (data imgType : GoString)
    (h : rw.status = none) :
    ((imgType = lit "png" ∨ imgType = lit "svg") ∧
      (writeImage rw data 200 imgType).1.status = some 200 ∧
      ((writeImage rw data 200 imgType).1.sentHeader (lit "Content-Type")
          = some (lit "image/png") ∨
        (writeImage rw data 200 imgType).1.sentHeader (lit "Content-Type")
          = some (lit "image/svg+xml"))) ∨
    (imgType ≠ lit "png" ∧ imgType ≠ lit "svg" ∧
      writeImage rw data 200 imgType =
        (rw, some (.errorString (lit "unhandled image type: " ++ imgType)))) := by
  have key : ∀ m : GoString,
      (((rw.SetHeader (lit "Content-Type") m).WriteHeader 200).Write data).1.status = some 200 ∧
      (((rw.SetHeader (lit "Content-Type") m).WriteHeader 200).Write data).1.sentHeader
        (lit "Content-Type") = some m := by
    intro m
    have hs : ((rw.SetHeader (lit "Content-Type") m).WriteHeader 200).status = some 200 := by
      simp [ResponseWriter.SetHeader, ResponseWriter.WriteHeader, h]
    refine ⟨http.ResponseWriter.Write_status _ _ _ hs, ?_⟩
    unfold ResponseWriter.sentHeader
    rw [http.ResponseWriter.Write_sent _ _ 200 hs]
    exact http.ResponseWriter.sentHeader_SetHeader_WriteHeader rw _ _ 200 h
  unfold writeImage
  by_cases hpng : imgType = lit "png"
  · refine Or.inl ⟨Or.inl hpng, ?_⟩
    have k := key (lit "image/png")
    simp only [hpng, if_true]
    split
    all_goals
      rename_i heq
      rw [heq] at k
      exact ⟨k.1, Or.inl k.2⟩
  · by_cases hsvg : imgType = lit "svg"
    · refine Or.inl ⟨Or.inr hsvg, ?_⟩
      have k := key (lit "image/svg+xml")
      have hne : lit "svg" ≠ lit "png" := by decide
      simp only [hsvg, hne, if_false, if_true]
      split
      all_goals
        rename_i heq
        rw [heq] at k
        exact ⟨k.1, Or.inr k.2⟩
    · refine Or.inr ⟨hpng, hsvg, ?_⟩
      simp only [hpng, hsvg, if_false]

/-- The generation step answers 200 with an image content type, or 500 through
`writeErr`; it calls the generator exactly once. -/
theorem generateAndServe_shape (env : Env) (rw : ResponseWriter) (imgType : GoString)
    (diagram : Diagram) (h : rw.status = none) :
    ((generateAndServe env rw imgType diagram).rw.status = some 200 ∧
      ((generateAndServe env rw imgType diagram).rw.sentHeader (lit "Content-Type")
          = some (lit "image/png") ∨
        (generateAndServe env rw imgType diagram).rw.sentHeader (lit "Content-Type")
          = some (lit "image/svg+xml"))) ∨
    ((generateAndServe env rw imgType diagram).rw.status = some 500 ∧
      (generateAndServe env rw imgType diagram).rw.sentHeader (lit "Content-Type")
        = some (lit "application/json") ∧
      ∃ err, (generateAndServe env rw imgType diagram).log = [logLine 500 err]) := by
  unfold generateAndServe
  split
  · exact Or.inr ⟨writeErr_status _ _ _ h, writeErr_contentType _ _ _ h, _, rfl⟩
  · split
    · exact Or.inr ⟨writeErr_status _ _ _ h, writeErr_contentType _ _ _ h, _, rfl⟩
    · rename_i diagramBytes _
      rcases writeImage_cases rw diagramBytes imgType h with ⟨_, hs, hct⟩ | ⟨_, _, hbad⟩
      · split
        · rename_i rw1 err heq
          rw [heq] at hs hct
          have hkeep := writeErr_status_of_sent rw1
            (.wrapError (lit "could not write diagram: " ++ err.Error)) 500 200 hs
          refine Or.inl ⟨hkeep.1, ?_⟩
          unfold ResponseWriter.sentHeader at hct ⊢
          simp only at hct ⊢
          rw [hkeep.2]
          exact hct
        · rename_i rw1 heq
          rw [heq] at hs hct
          exact Or.inl ⟨hs, hct⟩
      · rw [hbad]
        exact Or.inr ⟨writeErr_status _ _ _ h, writeErr_contentType _ _ _ h, _, rfl⟩

theorem extractDiagram_some (quote : GoString → GoString) (r : Request) (imgType : GoString)
    (diagram : Diagram) (h : extractDiagram quote r imgType = some (some diagram, none)) :
    (r.Method = lit "GET" ∨ r.Method = lit "POST") ∧ diagram.imgType = imgType := by
  unfold extractDiagram at h
  by_cases hget : r.Method = lit "GET"
  · refine ⟨Or.inl hget, ?_⟩
    simp only [hget, if_true, Option.some.injEq] at h
    unfold getDiagramFromGET at h
    simp only [hget, ne_eq, not_true_eq_false, if_false] at h
    split at h
    · simp at h
    · split at h
      · simp at h
      · simp only [NewDiagram, Prod.mk.injEq, Option.some.injEq, and_true] at h
        rw [← h]
  · by_cases hpost : r.Method = lit "POST"
    · refine ⟨Or.inr hpost, ?_⟩
      rw [if_neg hget, if_pos hpost] at h
      simp only [Option.some.injEq] at h
      unfold getDiagramFromPOST at h
      rw [if_neg (not_not.mpr hpost)] at h
      split at h
      · simp at h
      · simp only [NewDiagram, Prod.mk.injEq, Option.some.injEq, and_true] at h
        rw [← h]
    · simp [hget, hpost] at h

theorem extractDiagram_none (quote : GoString → GoString) (r : Request) (imgType : GoString)
    (hget : r.Method ≠ lit "GET") (hpost : r.Method ≠ lit "POST") :
    extractDiagram quote r imgType = none := by
  simp [extractDiagram, hget, hpost]

theorem writeErr_body (rw : ResponseWriter) (err : GoError) (status : Nat)
    (h : rw.writeFailure = none) :
    (writeErr rw err status).rw.body = rw.body ++ lit "\x7b\"error\":\x7b\x7d\x7d" ∧
    (writeErr rw err status).panicked = none := by
  have hjson : json.Marshal { error := err } = .ok (lit "\x7b\"error\":\x7b\x7d\x7d") := by
    cases err <;> rfl
  have hw : ((rw.SetHeader (lit "Content-Type") (lit "application/json")).WriteHeader
      status).writeFailure = none := by
    rw [http.ResponseWriter.WriteHeader_writeFailure]
    exact h
  have hok := http.ResponseWriter.Write_ok _ (lit "\x7b\"error\":\x7b\x7d\x7d") hw
  rw [http.ResponseWriter.WriteHeader_body] at hok
  simp only [writeErr, writeJSON, hjson]
  split
  · rename_i heq
    rw [heq] at hok
    simp at hok
  · rename_i heq
    rw [heq] at hok
    exact ⟨hok.2, rfl⟩

/-- What the generation step does when the generator fails, for any diagram:
status 500 through `writeErr`, the message in the log, no file read, and, when
the write succeeds, the body `{"error":{}}`. -/
theorem generateAndServe_generator_failure (env : Env) (rw : ResponseWriter)
    (imgType : GoString) (diagram : Diagram) (err : GoString)
    (hfresh : rw.status = none) (hgen : (env.Generate diagram).2 = some err) :
    (generateAndServe env rw imgType diagram).rw.status = some 500 ∧
    (generateAndServe env rw imgType diagram).rw.sentHeader (lit "Content-Type")
      = some (lit "application/json") ∧
    (generateAndServe env rw imgType diagram).log
      = [lit "[500] " ++ (lit "could not generate diagram: " ++ err)] ∧
    (generateAndServe env rw imgType diagram).read = [] ∧
    (rw.writeFailure = none →
      (generateAndServe env rw imgType diagram).rw.body
        = rw.body ++ lit "\x7b\"error\":\x7b\x7d\x7d") := by
  unfold generateAndServe
  split
  · rename_i err1 heq
    rw [heq] at hgen
    simp only [Option.some.injEq] at hgen
    subst hgen
    refine ⟨writeErr_status _ _ _ hfresh, writeErr_contentType _ _ _ hfresh, ?_, rfl,
      fun hw => (writeErr_body _ _ _ hw).1⟩
    show [logLine 500 _] = _
    rw [logLine_500]
    rfl
  · rename_i heq
    rw [heq] at hgen
    cases hgen

theorem extractDiagram_GET (quote : GoString → GoString) (r : Request) (imgType : GoString)
    (h : r.Method = lit "GET") :
    extractDiagram quote r imgType = some (getDiagramFromGET quote r imgType) := by
  unfold extractDiagram
  rw [if_pos h]

theorem extractDiagram_POST (quote : GoString → GoString) (r : Request) (imgType : GoString)
    (h : r.Method = lit "POST") :
    extractDiagram quote r imgType = some (getDiagramFromPOST r imgType) := by
  have hne : r.Method ≠ lit "GET" := by
    rw [h]
    decide
  unfold extractDiagram
  rw [if_neg hne, if_pos h]

theorem generateHTTPHandler_extraction_error (env : Env) (rw : ResponseWriter) (r : Request)
    (imgType : GoString) (d : Option Diagram) (err : GoError)
    (htype : selectImageType (r.Query.Get URLParamImageType) = some imgType)
    (hextract : extractDiagram env.Quote r imgType = some (d, some err)) :
    generateHTTPHandler env rw r = writeErr rw err 400 := by
  simp only [generateHTTPHandler, htype, dispatchMethod, hextract]
  cases d <;> rfl

/-- What the generation step does when the artifact cannot be read: status 500
through `writeErr` and the message in the log. -/
theorem generateAndServe_read_failure (env : Env) (rw : ResponseWriter)
    (imgType : GoString) (diagram : Diagram) (err : GoString)
    (hfresh : rw.status = none) (hgen : (env.Generate diagram).2 = none)
    (hread : env.ReadFile (env.Generate diagram).1.Output = .error err) :
    (generateAndServe env rw imgType diagram).rw.status = some 500 ∧
    (generateAndServe env rw imgType diagram).rw.sentHeader (lit "Content-Type")
      = some (lit "application/json") ∧
    (generateAndServe env rw imgType diagram).log
      = [lit "[500] " ++ (lit "could not read diagram bytes: " ++ err)] := by
  unfold generateAndServe
  split
  · rename_i heq
    rw [heq] at hgen
    cases hgen
  · rename_i diagram1 heq
    rw [heq] at hread
    simp only at hread
    rw [hread]
    refine ⟨writeErr_status _ _ _ hfresh, writeErr_contentType _ _ _ hfresh, ?_⟩
    show [logLine 500 _] = _
    rw [logLine_500]
    rfl

/-- Without a `%` or `+` left in it, the decoded and trimmed `data` value goes
into the diagram as it is: the second unescaping does not change it. -/
theorem getDiagramFromGET_plain_value (quote : GoString → GoString) (r : Request)
    (imgType : GoString) (hmethod : r.Method = lit "GET")
    (hne : strings.TrimSpace (r.Query.Get URLParam) ≠ [])
    (hplain : ∀ c ∈ strings.TrimSpace (r.Query.Get URLParam), c ≠ 37 ∧ c ≠ 43) :
    ∃ d, getDiagramFromGET quote r imgType = (some d, none) ∧
      d.description = strings.TrimSpace (r.Query.Get URLParam) ∧ d.imgType = imgType := by
  refine ⟨{ description := strings.TrimSpace (r.Query.Get URLParam), imgType := imgType,
            scale := [], Output := [] }, ?_, rfl, rfl⟩
  simp [getDiagramFromGET, hmethod, hne, url.QueryUnescape_plain _ hplain, NewDiagram]

/-- What the handler does for every GET request with a valid image type whose
`data` parameter is absent, empty, or white space only: no diagram, the error
`missing data`, status 400 through `writeErr`, the message in the log, no call
of the generator, and, when the write succeeds, the body `{"error":{}}`. -/
theorem missing_data_response (env : Env) (rw : ResponseWriter) (r : Request)
    (imgType : GoString) (hfresh : rw.status = none) (hmethod : r.Method = lit "GET")
    (htype : selectImageType (r.Query.Get URLParamImageType) = some imgType)
    (hdata : r.Query.Has URLParam = false ∨ r.Query.Get URLParam = [] ∨
      WhitespaceOnly (r.Query.Get URLParam)) :
    getDiagramFromGET env.Quote r imgType = (none, some (.errorString (lit "missing data"))) ∧
    (generateHTTPHandler env rw r).rw.status = some 400 ∧
    (generateHTTPHandler env rw r).log = [lit "[400] " ++ lit "missing data"] ∧
    (generateHTTPHandler env rw r).generated = [] ∧
    (rw.writeFailure = none →
      (generateHTTPHandler env rw r).rw.body = rw.body ++ lit "\x7b\"error\":\x7b\x7d\x7d") := by
  have hws : WhitespaceOnly (r.Query.Get URLParam) := by
    rcases hdata with h | h | h
    · rw [url.Values.Get_of_not_Has _ _ h]
      exact WhitespaceOnly.nil
    · rw [h]
      exact WhitespaceOnly.nil
    · exact h
  have htrim := strings.TrimSpace_whitespaceOnly _ hws
  have hget : getDiagramFromGET env.Quote r imgType =
      (none, some (.errorString (lit "missing data"))) := by
    simp [getDiagramFromGET, hmethod, htrim]
  have hout : generateHTTPHandler env rw r =
      writeErr rw (.errorString (lit "missing data")) 400 := by
    simp [generateHTTPHandler, dispatchMethod, extractDiagram, checkExtracted, htype, hmethod,
      hget]
  refine ⟨hget, ?_, ?_, ?_, ?_⟩
  · rw [hout]
    exact writeErr_status _ _ _ hfresh
  · rw [hout, writeErr_log, logLine_400]
    rfl
  · rw [hout]
    rfl
  · intro hw
    rw [hout]
    exact (writeErr_body _ _ _ hw).1

/-! ## The claims -/

/-- C1: the image type comes from the `type` query parameter: `svg` selects svg,
`png` selects png, the empty value and an absent parameter select svg (the
rest of the handler runs with that type); for any other value the handler
answers with status 400, reports the error `unsupported image type (..) use
svg or png` and does not call the generator. -/
theorem C1_image_type_selection (env : Env) (rw : ResponseWriter) (r : Request) :
    (r.Query.Get URLParamImageType = lit "svg" →
        generateHTTPHandler env rw r = dispatchMethod env rw r (lit "svg")) ∧
    (r.Query.Get URLParamImageType = lit "png" →
        generateHTTPHandler env rw r = dispatchMethod env rw r (lit "png")) ∧
    (r.Query.Get URLParamImageType = [] →
        generateHTTPHandler env rw r = dispatchMethod env rw r (lit "svg")) ∧
    (r.Query.Has URLParamImageType = false →
        generateHTTPHandler env rw r = dispatchMethod env rw r (lit "svg")) ∧
    (r.Query.Get URLParamImageType ≠ lit "svg" → r.Query.Get URLParamImageType ≠ lit "png" →
      r.Query.Get URLParamImageType ≠ [] → rw.status = none →
        (generateHTTPHandler env rw r).rw.status = some 400 ∧
        (generateHTTPHandler env rw r).log =
          [lit "[400] " ++ (lit "unsupported image type (" ++ r.Query.Get URLParamImageType ++
            lit ") use svg or png")] ∧
        (generateHTTPHandler env rw r).generated = []) := by
  have hempty : r.Query.Get URLParamImageType = [] →
      generateHTTPHandler env rw r = dispatchMethod env rw r (lit "svg") := by
    intro h
    have : selectImageType [] = some (lit "svg") := by decide
    simp [generateHTTPHandler, h, this]
  refine ⟨?_, ?_, hempty, ?_, ?_⟩
  · intro h
    have : selectImageType (lit "svg") = some (lit "svg") := by decide
    simp [generateHTTPHandler, h, this]
  · intro h
    have : selectImageType (lit "png") = some (lit "png") := by decide
    simp [generateHTTPHandler, h, this]
  · intro h
    exact hempty (url.Values.Get_of_not_Has _ _ h)
  · intro h1 h2 h3 hrw
    have hsel := selectImageType_none _ h1 h2 h3
    simp only [generateHTTPHandler, hsel]
    refine ⟨writeErr_status _ _ _ hrw, ?_, rfl⟩
    rw [writeErr_log, logLine_400]
    rfl

/-- A request with `type=PNG`. -/
theorem C1_image_type_selection_witness :
    (generateHTTPHandler stubEnv freshWriter
        { Method := lit "GET", RawQuery := lit "data=a&type=PNG", Body := .ok [] }).rw.status
      = some 400 ∧
    (generateHTTPHandler stubEnv freshWriter
        { Method := lit "GET", RawQuery := lit "data=a&type=PNG", Body := .ok [] }).log
      = [lit "[400] " ++ (lit "unsupported image type (" ++ lit "PNG" ++ lit ") use svg or png")] ∧
    (generateHTTPHandler stubEnv freshWriter
        { Method := lit "GET", RawQuery := lit "data=a&type=PNG", Body := .ok [] }).generated
      = [] ∧
    generateHTTPHandler stubEnv freshWriter
        { Method := lit "POST", RawQuery := lit "type=png", Body := .ok (lit "A->B") }
      = dispatchMethod stubEnv freshWriter
        { Method := lit "POST", RawQuery := lit "type=png", Body := .ok (lit "A->B") } (lit "png") :=
  ⟨((C1_image_type_selection stubEnv freshWriter
      { Method := lit "GET", RawQuery := lit "data=a&type=PNG", Body := .ok [] }).2.2.2.2
      (by decide) (by decide) (by decide) rfl).1,
   ((C1_image_type_selection stubEnv freshWriter
      { Method := lit "GET", RawQuery := lit "data=a&type=PNG", Body := .ok [] }).2.2.2.2
      (by decide) (by decide) (by decide) rfl).2.1,
   ((C1_image_type_selection stubEnv freshWriter
      { Method := lit "GET", RawQuery := lit "data=a&type=PNG", Body := .ok [] }).2.2.2.2
      (by decide) (by decide) (by decide) rfl).2.2,
   (C1_image_type_selection stubEnv freshWriter
      { Method := lit "POST", RawQuery := lit "type=png", Body := .ok (lit "A->B") }).2.1
      (by decide)⟩

/-- C2, as stated, fails for the empty string: with `scale=` the parameter is
present, its value is the empty string, which `strconv.Atoi` rejects, yet
the handler answers 200 and calls the generator with the scale `10`. -/
theorem C2_counterexample_empty_scale :
    emptyScaleRequest.Query.Has URLParamImageScale = true ∧
    emptyScaleRequest.Query.Get URLParamImageScale = [] ∧
    strconv.Atoi (emptyScaleRequest.Query.Get URLParamImageScale) = none ∧
    (generateHTTPHandler stubEnv freshWriter emptyScaleRequest).rw.status = some 200 ∧
    (generateHTTPHandler stubEnv freshWriter emptyScaleRequest).generated =
      [{ description := lit "a", imgType := lit "svg", scale := lit "10", Output := [] }] := by
  decide

/-- C2, amended: for a request whose image type and description extraction
succeed, with `s` the value of the `scale` parameter: if `s` is not empty and
is not a base-10 integer, or is an integer outside 1..100, the handler answers
400 and does not call the generator; if `s` is an integer `n` with
`1 ≤ n ≤ 100`, the generator is called once, with the diagram whose scale is
`s` (which denotes `n`); if the parameter is absent or `s` is empty, the
generator is called once, with the diagram whose scale is `10`. -/
theorem C2_scale_validation (env : Env) (rw : ResponseWriter) (r : Request)
    (imgType : GoString) (diagram : Diagram) (hfresh : rw.status = none)
    (htype : selectImageType (r.Query.Get URLParamImageType) = some imgType)
    (hextract : extractDiagram env.Quote r imgType = some (some diagram, none)) :
    (r.Query.Get URLParamImageScale ≠ [] →
      (strconv.Atoi (r.Query.Get URLParamImageScale) = none ∨
        ∃ n, strconv.Atoi (r.Query.Get URLParamImageScale) = some n ∧ (n < 1 ∨ 100 < n)) →
      (generateHTTPHandler env rw r).rw.status = some 400 ∧
      (generateHTTPHandler env rw r).generated = []) ∧
    (∀ n, strconv.Atoi (r.Query.Get URLParamImageScale) = some n → 1 ≤ n → n ≤ 100 →
      (generateHTTPHandler env rw r).generated =
        [{ diagram with scale := r.Query.Get URLParamImageScale }]) ∧
    ((r.Query.Has URLParamImageScale = false ∨ r.Query.Get URLParamImageScale = []) →
      (generateHTTPHandler env rw r).generated = [{ diagram with scale := lit "10" }]) := by
  rw [generateHTTPHandler_eq_applyScale env rw r imgType diagram htype hextract]
  refine ⟨?_, ?_, ?_⟩
  · intro hne hbad
    rcases hbad with hnone | ⟨n, hn, hrange⟩
    · simp only [applyScale, hne, hnone, ne_eq, not_false_eq_true, if_true]
      exact ⟨http.Error_status _ _ _ hfresh, trivial⟩
    · have hcond : n < 1 ∨ n > 100 := hrange
      simp only [applyScale, hne, hn, ne_eq, not_false_eq_true, if_true, hcond]
      exact ⟨http.Error_status _ _ _ hfresh, trivial⟩
  · intro n hn h1 h100
    have hne : r.Query.Get URLParamImageScale ≠ [] := by
      intro hempty
      have hnil : strconv.Atoi [] = none := by decide
      rw [hempty, hnil] at hn
      cases hn
    have hcond : ¬ (n < 1 ∨ n > 100) := by omega
    simp only [applyScale, hne, hn, ne_eq, not_false_eq_true, if_true, hcond, if_false]
    exact generateAndServe_generated _ _ _ _
  · intro habsent
    have hempty : r.Query.Get URLParamImageScale = [] := by
      rcases habsent with h | h
      · exact url.Values.Get_of_not_Has _ _ h
      · exact h
    simp only [applyScale, hempty, ne_eq, not_true_eq_false, if_false]
    exact generateAndServe_generated _ _ _ _

/-- Requests with `scale=101`, `scale=abc`, `scale=20` and without `scale`. -/
theorem C2_scale_validation_witness :
    ((generateHTTPHandler stubEnv freshWriter
        { Method := lit "GET", RawQuery := lit "data=a&scale=101", Body := .ok [] }).rw.status
        = some 400 ∧
     (generateHTTPHandler stubEnv freshWriter
        { Method := lit "GET", RawQuery := lit "data=a&scale=101", Body := .ok [] }).generated
        = []) ∧
    ((generateHTTPHandler stubEnv freshWriter
        { Method := lit "GET", RawQuery := lit "data=a&scale=abc", Body := .ok [] }).rw.status
        = some 400 ∧
     (generateHTTPHandler stubEnv freshWriter
        { Method := lit "GET", RawQuery := lit "data=a&scale=abc", Body := .ok [] }).generated
        = []) ∧
    (generateHTTPHandler stubEnv freshWriter
        { Method := lit "GET", RawQuery := lit "data=a&scale=20", Body := .ok [] }).generated
        = [{ description := lit "a", imgType := lit "svg", scale := lit "20", Output := [] }] ∧
    (generateHTTPHandler stubEnv freshWriter
        { Method := lit "POST", RawQuery := [], Body := .ok (lit "a") }).generated
        = [{ description := lit "a", imgType := lit "svg", scale := lit "10", Output := [] }] :=
  ⟨(C2_scale_validation stubEnv freshWriter
      { Method := lit "GET", RawQuery := lit "data=a&scale=101", Body := .ok [] } (lit "svg")
      { description := lit "a", imgType := lit "svg", scale := [], Output := [] }
      rfl (by decide) (by decide)).1 (by decide) (Or.inr ⟨101, by decide, Or.inr (by decide)⟩),
   (C2_scale_validation stubEnv freshWriter
      { Method := lit "GET", RawQuery := lit "data=a&scale=abc", Body := .ok [] } (lit "svg")
      { description := lit "a", imgType := lit "svg", scale := [], Output := [] }
      rfl (by decide) (by decide)).1 (by decide) (Or.inl (by decide)),
   (C2_scale_validation stubEnv freshWriter
      { Method := lit "GET", RawQuery := lit "data=a&scale=20", Body := .ok [] } (lit "svg")
      { description := lit "a", imgType := lit "svg", scale := [], Output := [] }
      rfl (by decide) (by decide)).2.1 20 (by decide) (by decide) (by decide),
   (C2_scale_validation stubEnv freshWriter
      { Method := lit "POST", RawQuery := [], Body := .ok (lit "a") } (lit "svg")
      { description := lit "a", imgType := lit "svg", scale := [], Output := [] }
      rfl (by decide) (by decide)).2.2 (Or.inl (by decide))⟩

/-- C3 at the failing input: `data=100%25` is the percent-encoding of `100%`, and
`r.URL.Query()` decodes it to `100%`, yet `getDiagramFromGET` returns no diagram
and the error `could not read query param: invalid URL escape "%"`, because it
unescapes the decoded value a second time; likewise `data=a%2Bb` is the
percent-encoding of `a+b`, yet the description is `a b`. -/
theorem C3_double_decoding_at_input :
    url.QueryUnescape (lit "100%25") = .ok (lit "100%") ∧
    percentRequest.Query.Get URLParam = lit "100%" ∧
    strings.TrimSpace (lit "100%") = lit "100%" ∧
    getDiagramFromGET stubEnv.Quote percentRequest (lit "svg") =
      (none, some (.errorString
        (lit "could not read query param: invalid URL escape \"%\""))) ∧
    (generateHTTPHandler stubEnv freshWriter percentRequest).rw.status = some 400 ∧
    (generateHTTPHandler stubEnv freshWriter percentRequest).generated = [] ∧
    url.QueryUnescape (lit "a%2Bb") = .ok (lit "a+b") ∧
    plusRequest.Query.Get URLParam = lit "a+b" ∧
    strings.TrimSpace (lit "a+b") = lit "a+b" ∧
    getDiagramFromGET stubEnv.Quote plusRequest (lit "svg") =
      (some { description := lit "a b", imgType := lit "svg", scale := [], Output := [] },
        none) := by
  decide

/-- C4 at the failing inputs: for a GET request with the valid type `png` and no
`data` parameter, and for one whose `data` is white space only,
`getDiagramFromGET` returns no diagram and the error `missing data`, the
handler answers with status 400 and the content type `application/json`, logs
`[400] missing data` and does not call the generator, but the body it sends
is `{"error":{}}`: the message `missing data` is not in the response. -/
theorem C4_missing_data_body :
    selectImageType (noDataRequest.Query.Get URLParamImageType) = some (lit "png") ∧
    noDataRequest.Query.Has URLParam = false ∧
    getDiagramFromGET stubEnv.Quote noDataRequest (lit "png") =
      (none, some (.errorString (lit "missing data"))) ∧
    (generateHTTPHandler stubEnv freshWriter noDataRequest).rw.status = some 400 ∧
    (generateHTTPHandler stubEnv freshWriter noDataRequest).rw.sentHeader (lit "Content-Type")
      = some (lit "application/json") ∧
    (generateHTTPHandler stubEnv freshWriter noDataRequest).log = [lit "[400] missing data"] ∧
    (generateHTTPHandler stubEnv freshWriter noDataRequest).generated = [] ∧
    (generateHTTPHandler stubEnv freshWriter noDataRequest).rw.body
      = lit "\x7b\"error\":\x7b\x7d\x7d" ∧
    blankDataRequest.Query.Get URLParam = [0x20, 0x09] ∧
    (generateHTTPHandler stubEnv freshWriter blankDataRequest).rw.status = some 400 ∧
    (generateHTTPHandler stubEnv freshWriter blankDataRequest).log
      = [lit "[400] missing data"] ∧
    (generateHTTPHandler stubEnv freshWriter blankDataRequest).rw.body
      = lit "\x7b\"error\":\x7b\x7d\x7d" := by
  decide

/-- C5: for a POST request whose body is read in full as the bytes `b` (empty
or not), `getDiagramFromPOST` returns no error and a diagram whose description
is `b`, unchanged, and whose image type is the one passed in. -/
theorem C5_post_description (r : Request) (imgType b : GoString)
    (hmethod : r.Method = lit "POST") (hbody : r.Body = .ok b) :
    ∃ d, getDiagramFromPOST r imgType = (some d, none) ∧
      d.description = b ∧ d.imgType = imgType := by
  refine ⟨{ description := b, imgType := imgType, scale := [], Output := [] }, ?_, rfl, rfl⟩
  simp [getDiagramFromPOST, hmethod, hbody, NewDiagram]

/-- The empty body and a body with white space and a percent sign. -/
theorem C5_post_description_witness :
    (∃ d, getDiagramFromPOST { Method := lit "POST", RawQuery := [], Body := .ok [] } (lit "svg")
        = (some d, none) ∧ d.description = [] ∧ d.imgType = lit "svg") ∧
    (∃ d, getDiagramFromPOST
        { Method := lit "POST", RawQuery := [], Body := .ok (lit " a%2Bb+c \n") } (lit "png")
        = (some d, none) ∧ d.description = lit " a%2Bb+c \n" ∧ d.imgType = lit "png") :=
  ⟨C5_post_description _ (lit "svg") [] rfl rfl,
   C5_post_description _ (lit "png") (lit " a%2Bb+c \n") rfl rfl⟩

/-- C6: for a request that passes the type, extraction and scale checks, on a
response on which nothing was sent yet and whose writes succeed: if the
generator returns no error for the diagram it is called with and the file at
the output path of that diagram is read as the bytes `B`, the handler answers
with status 200, the body `B`, and the content type `image/png` when the
`type` parameter is `png`, `image/svg+xml` when it is `svg` or empty or
absent, whatever `B` is. -/
theorem C6_success_response (env : Env) (rw : ResponseWriter) (r : Request)
    (imgType : GoString) (diagram passed diagram1 : Diagram) (B : GoString)
    (hfresh : rw.status = none) (hbody : rw.body = []) (hwrite : rw.writeFailure = none)
    (htype : selectImageType (r.Query.Get URLParamImageType) = some imgType)
    (hextract : extractDiagram env.Quote r imgType = some (some diagram, none))
    (hscale : r.Query.Get URLParamImageScale = [] ∨
      ∃ n, strconv.Atoi (r.Query.Get URLParamImageScale) = some n ∧ 1 ≤ n ∧ n ≤ 100)
    (hpassed : (generateHTTPHandler env rw r).generated = [passed])
    (hgen : env.Generate passed = (diagram1, none))
    (hread : env.ReadFile diagram1.Output = .ok B) :
    (generateHTTPHandler env rw r).rw.status = some 200 ∧
    (generateHTTPHandler env rw r).rw.body = B ∧
    (r.Query.Get URLParamImageType = lit "png" →
      (generateHTTPHandler env rw r).rw.sentHeader (lit "Content-Type")
        = some (lit "image/png")) ∧
    ((r.Query.Get URLParamImageType = lit "svg" ∨ r.Query.Get URLParamImageType = [] ∨
        r.Query.Has URLParamImageType = false) →
      (generateHTTPHandler env rw r).rw.sentHeader (lit "Content-Type")
        = some (lit "image/svg+xml")) := by
  rw [generateHTTPHandler_eq_applyScale env rw r imgType diagram htype hextract] at hpassed ⊢
  have hsel := selectImageType_some _ _ htype
  have hpng : lit "png" ≠ lit "svg" := by decide
  have hpng0 : lit "png" ≠ ([] : GoString) := by decide
  -- the rest of the handler is `generateAndServe` on the diagram with its scale set
  have hstage : ∃ d, applyScale env rw r imgType diagram = generateAndServe env rw imgType d := by
    rcases hscale with hempty | ⟨n, hn, h1, h100⟩
    · exact ⟨{ diagram with scale := lit "10" },
        by simp only [applyScale, hempty, ne_eq, not_true_eq_false, if_false]⟩
    · have hne : r.Query.Get URLParamImageScale ≠ [] := by
        intro hempty
        have hnil : strconv.Atoi [] = none := by decide
        rw [hempty, hnil] at hn
        cases hn
      have hcond : ¬ (n < 1 ∨ n > 100) := by omega
      exact ⟨{ diagram with scale := r.Query.Get URLParamImageScale },
        by simp only [applyScale, hne, hn, ne_eq, not_false_eq_true, if_true, hcond, if_false]⟩
  obtain ⟨d, hd⟩ := hstage
  rw [hd] at hpassed ⊢
  rw [generateAndServe_generated] at hpassed
  have hdp : d = passed := by simpa using hpassed
  subst hdp
  have hserve := fun mime hmime =>
    generateAndServe_ok env rw imgType mime d diagram1 B hfresh hwrite hmime hgen hread
  rcases hsel.2 with ⟨ht, hi⟩ | ⟨ht, hi⟩
  · have h := hserve (lit "image/png") (Or.inl ⟨hi, rfl⟩)
    refine ⟨h.1, by rw [h.2.2.1, hbody]; rfl, fun _ => h.2.1, ?_⟩
    intro hsvg
    rcases hsvg with h1 | h1 | h1
    · exact absurd (ht.symm.trans h1) hpng
    · exact absurd (ht.symm.trans h1) hpng0
    · exact absurd (ht.symm.trans (url.Values.Get_of_not_Has _ _ h1)) hpng0
  · have h := hserve (lit "image/svg+xml") (Or.inr ⟨hi, rfl⟩)
    refine ⟨h.1, by rw [h.2.2.1, hbody]; rfl, ?_, fun _ => h.2.1⟩
    intro hp
    rcases ht with h1 | h1
    · exact absurd (hp.symm.trans h1) hpng
    · exact absurd (hp.symm.trans h1) hpng0

/-- The requests `GET /generate?data=A%2D%3EB&type=png&scale=20` and
`POST /generate` with the body `A->B`, with a generator stub that leaves the
bytes `IMG` at its output path. -/
theorem C6_success_response_witness :
    ((generateHTTPHandler stubEnv freshWriter
        { Method := lit "GET", RawQuery := lit "data=A%2D%3EB&type=png&scale=20",
          Body := .ok [] }).rw.status = some 200 ∧
     (generateHTTPHandler stubEnv freshWriter
        { Method := lit "GET", RawQuery := lit "data=A%2D%3EB&type=png&scale=20",
          Body := .ok [] }).rw.body = lit "IMG" ∧
     (generateHTTPHandler stubEnv freshWriter
        { Method := lit "GET", RawQuery := lit "data=A%2D%3EB&type=png&scale=20",
          Body := .ok [] }).rw.sentHeader (lit "Content-Type") = some (lit "image/png")) ∧
    (generateHTTPHandler stubEnv freshWriter
        { Method := lit "POST", RawQuery := [], Body := .ok (lit "A->B") }).rw.sentHeader
          (lit "Content-Type") = some (lit "image/svg+xml") :=
  ⟨⟨(C6_success_response stubEnv freshWriter
        { Method := lit "GET", RawQuery := lit "data=A%2D%3EB&type=png&scale=20", Body := .ok [] }
        (lit "png") { description := lit "A->B", imgType := lit "png", scale := [], Output := [] }
        { description := lit "A->B", imgType := lit "png", scale := lit "20", Output := [] }
        { description := lit "A->B", imgType := lit "png", scale := lit "20",
          Output := lit "out.img" }
        (lit "IMG") rfl rfl rfl (by decide) (by decide)
        (Or.inr ⟨20, by decide, by decide, by decide⟩) (by decide) rfl rfl).1,
     (C6_success_response stubEnv freshWriter
        { Method := lit "GET", RawQuery := lit "data=A%2D%3EB&type=png&scale=20", Body := .ok [] }
        (lit "png") { description := lit "A->B", imgType := lit "png", scale := [], Output := [] }
        { description := lit "A->B", imgType := lit "png", scale := lit "20", Output := [] }
        { description := lit "A->B", imgType := lit "png", scale := lit "20",
          Output := lit "out.img" }
        (lit "IMG") rfl rfl rfl (by decide) (by decide)
        (Or.inr ⟨20, by decide, by decide, by decide⟩) (by decide) rfl rfl).2.1,
     (C6_success_response stubEnv freshWriter
        { Method := lit "GET", RawQuery := lit "data=A%2D%3EB&type=png&scale=20", Body := .ok [] }
        (lit "png") { description := lit "A->B", imgType := lit "png", scale := [], Output := [] }
        { description := lit "A->B", imgType := lit "png", scale := lit "20", Output := [] }
        { description := lit "A->B", imgType := lit "png", scale := lit "20",
          Output := lit "out.img" }
        (lit "IMG") rfl rfl rfl (by decide) (by decide)
        (Or.inr ⟨20, by decide, by decide, by decide⟩) (by decide) rfl rfl).2.2.1 (by decide)⟩,
   (C6_success_response stubEnv freshWriter
        { Method := lit "POST", RawQuery := [], Body := .ok (lit "A->B") }
        (lit "svg") { description := lit "A->B", imgType := lit "svg", scale := [], Output := [] }
        { description := lit "A->B", imgType := lit "svg", scale := lit "10", Output := [] }
        { description := lit "A->B", imgType := lit "svg", scale := lit "10",
          Output := lit "out.img" }
        (lit "IMG") rfl rfl rfl (by decide) (by decide)
        (Or.inl (by decide)) (by decide) rfl rfl).2.2.2 (Or.inr (Or.inr (by decide)))⟩

/-- C7, as stated, fails for the invalid-scale error: the handler answers it
with `http.Error`, so the response has status 400 but the content type
`text/plain; charset=utf-8`, not `application/json`, and its body is the plain
sentence followed by a newline, not a JSON object. -/
theorem C7_counterexample_invalid_scale :
    (generateHTTPHandler stubEnv freshWriter invalidScaleRequest).rw.status = some 400 ∧
    (generateHTTPHandler stubEnv freshWriter invalidScaleRequest).rw.sentHeader
      (lit "Content-Type") = some (lit "text/plain; charset=utf-8") ∧
    (generateHTTPHandler stubEnv freshWriter invalidScaleRequest).rw.sentHeader
      (lit "Content-Type") ≠ some (lit "application/json") ∧
    (generateHTTPHandler stubEnv freshWriter invalidScaleRequest).rw.body =
      lit "Invalid scale parameter. It must be a number between 1 and 100.\n" := by
  decide

/-- C7, amended: on a response on which nothing was sent yet, each error is
answered as follows. An unsupported image type, a method other than GET and
POST, missing data, a decode failure and a body read failure get status 400,
the content type `application/json` and their message in the log; a generator
failure and an artifact read failure get status 500, the content type
`application/json` and their message in the log; a non-empty `scale` that is
not an integer from 1 to 100 is answered through `http.Error`: status 400, the
content type `text/plain; charset=utf-8`, nothing logged and, when the write
succeeds, the invalid-scale sentence and a newline as body. Every response is
a 200, a JSON response with status 400 or 500, or that plain-text 400. -/
theorem C7_error_responses (env : Env) (rw : ResponseWriter) (r : Request)
    (hfresh : rw.status = none) :
    (selectImageType (r.Query.Get URLParamImageType) = none →
      (generateHTTPHandler env rw r).rw.status = some 400 ∧
      (generateHTTPHandler env rw r).rw.sentHeader (lit "Content-Type")
        = some (lit "application/json") ∧
      (generateHTTPHandler env rw r).log =
        [lit "[400] " ++ (lit "unsupported image type (" ++ r.Query.Get URLParamImageType ++
          lit ") use svg or png")]) ∧
    (∀ imgType, selectImageType (r.Query.Get URLParamImageType) = some imgType →
      (r.Method ≠ lit "GET" → r.Method ≠ lit "POST" →
        (generateHTTPHandler env rw r).rw.status = some 400 ∧
        (generateHTTPHandler env rw r).rw.sentHeader (lit "Content-Type")
          = some (lit "application/json") ∧
        (generateHTTPHandler env rw r).log =
          [lit "[400] " ++ (lit "unexpected HTTP method " ++ r.Method)]) ∧
      (r.Method = lit "GET" → strings.TrimSpace (r.Query.Get URLParam) = [] →
        (generateHTTPHandler env rw r).rw.status = some 400 ∧
        (generateHTTPHandler env rw r).rw.sentHeader (lit "Content-Type")
          = some (lit "application/json") ∧
        (generateHTTPHandler env rw r).log = [lit "[400] " ++ lit "missing data"]) ∧
      (∀ e, r.Method = lit "GET" → strings.TrimSpace (r.Query.Get URLParam) ≠ [] →
        url.QueryUnescape (strings.TrimSpace (r.Query.Get URLParam)) = .error e →
        (generateHTTPHandler env rw r).rw.status = some 400 ∧
        (generateHTTPHandler env rw r).rw.sentHeader (lit "Content-Type")
          = some (lit "application/json") ∧
        (generateHTTPHandler env rw r).log =
          [lit "[400] " ++ (lit "could not read query param: " ++
            url.EscapeError.Error env.Quote e)]) ∧
      (∀ e, r.Method = lit "POST" → r.Body = .error e →
        (generateHTTPHandler env rw r).rw.status = some 400 ∧
        (generateHTTPHandler env rw r).rw.sentHeader (lit "Content-Type")
          = some (lit "application/json") ∧
        (generateHTTPHandler env rw r).log =
          [lit "[400] " ++ (lit "could not read body: " ++ e)]) ∧
      (∀ diagram, extractDiagram env.Quote r imgType = some (some diagram, none) →
        (r.Query.Get URLParamImageScale ≠ [] →
          (strconv.Atoi (r.Query.Get URLParamImageScale) = none ∨
            ∃ n, strconv.Atoi (r.Query.Get URLParamImageScale) = some n ∧ (n < 1 ∨ 100 < n)) →
          (generateHTTPHandler env rw r).rw = http.Error rw invalidScaleMessage 400 ∧
          (generateHTTPHandler env rw r).rw.status = some 400 ∧
          (generateHTTPHandler env rw r).rw.sentHeader (lit "Content-Type")
            = some (lit "text/plain; charset=utf-8") ∧
          (generateHTTPHandler env rw r).log = [] ∧
          (rw.writeFailure = none →
            (generateHTTPHandler env rw r).rw.body = rw.body ++ (invalidScaleMessage ++ [10]))) ∧
        (∀ passed, (generateHTTPHandler env rw r).generated = [passed] →
          (∀ e, (env.Generate passed).2 = some e →
            (generateHTTPHandler env rw r).rw.status = some 500 ∧
            (generateHTTPHandler env rw r).rw.sentHeader (lit "Content-Type")
              = some (lit "application/json") ∧
            (generateHTTPHandler env rw r).log =
              [lit "[500] " ++ (lit "could not generate diagram: " ++ e)]) ∧
          (∀ e, (env.Generate passed).2 = none →
            env.ReadFile (env.Generate passed).1.Output = .error e →
            (generateHTTPHandler env rw r).rw.status = some 500 ∧
            (generateHTTPHandler env rw r).rw.sentHeader (lit "Content-Type")
              = some (lit "application/json") ∧
            (generateHTTPHandler env rw r).log =
              [lit "[500] " ++ (lit "could not read diagram bytes: " ++ e)])))) ∧
    ((generateHTTPHandler env rw r).rw.status = some 200 ∨
      (∃ status err, (status = 400 ∨ status = 500) ∧
        (generateHTTPHandler env rw r).rw.status = some status ∧
        (generateHTTPHandler env rw r).rw.sentHeader (lit "Content-Type")
          = some (lit "application/json") ∧
        (generateHTTPHandler env rw r).log = [logLine status err]) ∨
      ((generateHTTPHandler env rw r).rw.status = some 400 ∧
        (generateHTTPHandler env rw r).rw.sentHeader (lit "Content-Type")
          = some (lit "text/plain; charset=utf-8") ∧
        (generateHTTPHandler env rw r).log = [] ∧
        r.Query.Get URLParamImageScale ≠ [] ∧
        (strconv.Atoi (r.Query.Get URLParamImageScale) = none ∨
          ∃ n, strconv.Atoi (r.Query.Get URLParamImageScale) = some n ∧ (n < 1 ∨ 100 < n)))) := by
  -- a reply written by `writeErr` with status 400
  have hjson400 : ∀ msg : GoString,
      generateHTTPHandler env rw r = writeErr rw (.errorString msg) 400 →
      (generateHTTPHandler env rw r).rw.status = some 400 ∧
      (generateHTTPHandler env rw r).rw.sentHeader (lit "Content-Type")
        = some (lit "application/json") ∧
      (generateHTTPHandler env rw r).log = [lit "[400] " ++ msg] := by
    intro msg hout
    rw [hout]
    refine ⟨writeErr_status _ _ _ hfresh, writeErr_contentType _ _ _ hfresh, ?_⟩
    rw [writeErr_log, logLine_400]
    rfl
  refine ⟨?_, ?_, ?_⟩
  · intro hsel
    apply hjson400
    simp only [generateHTTPHandler, hsel]
  · intro imgType hsel
    refine ⟨?_, ?_, ?_, ?_, ?_⟩
    · intro hget hpost
      apply hjson400
      simp only [generateHTTPHandler, hsel, dispatchMethod,
        extractDiagram_none env.Quote r imgType hget hpost]
    · intro hmethod htrim
      apply hjson400
      apply generateHTTPHandler_extraction_error env rw r imgType none _ hsel
      rw [extractDiagram_GET _ _ _ hmethod]
      simp [getDiagramFromGET, hmethod, htrim]
    · intro e hmethod hne hdec
      apply hjson400
      apply generateHTTPHandler_extraction_error env rw r imgType none _ hsel
      rw [extractDiagram_GET _ _ _ hmethod]
      simp [getDiagramFromGET, hmethod, hne, hdec]
    · intro e hmethod hbody
      apply hjson400
      apply generateHTTPHandler_extraction_error env rw r imgType none _ hsel
      rw [extractDiagram_POST _ _ _ hmethod]
      simp [getDiagramFromPOST, hmethod, hbody]
    · intro diagram hextract
      have hout := generateHTTPHandler_eq_applyScale env rw r imgType diagram hsel hextract
      refine ⟨?_, ?_⟩
      · intro hne hbad
        have hreply : applyScale env rw r imgType diagram =
            { rw := http.Error rw invalidScaleMessage 400, log := [], generated := [],
              read := [], panicked := none } := by
          rcases hbad with hnone | ⟨n, hn, hrange⟩
          · simp only [applyScale, hne, hnone, ne_eq, not_false_eq_true, if_true]
          · have hcond : n < 1 ∨ n > 100 := hrange
            simp only [applyScale, hne, hn, ne_eq, not_false_eq_true, if_true, hcond]
        rw [hout, hreply]
        exact ⟨rfl, http.Error_status _ _ _ hfresh, http.Error_contentType _ _ _ hfresh, rfl,
          fun hw => http.Error_body _ _ _ hw⟩
      · intro passed hpassed
        rw [hout] at hpassed ⊢
        rcases applyScale_cases env rw r imgType diagram with
          ⟨_, _, hreply⟩ | ⟨scale, _, _, _, _, _, hserve⟩
        · rw [hreply] at hpassed
          cases hpassed
        · rw [hserve] at hpassed ⊢
          rw [generateAndServe_generated] at hpassed
          have hd : { diagram with scale := scale } = passed := by simpa using hpassed
          rw [hd]
          refine ⟨?_, ?_⟩
          · intro e hgen
            have h := generateAndServe_generator_failure env rw imgType passed e hfresh hgen
            exact ⟨h.1, h.2.1, h.2.2.1⟩
          · intro e hgen hread
            exact generateAndServe_read_failure env rw imgType passed e hfresh hgen hread
  · have hjson : ∀ (err : GoError) (status : Nat), (status = 400 ∨ status = 500) →
        generateHTTPHandler env rw r = writeErr rw err status →
        ∃ status err, (status = 400 ∨ status = 500) ∧
          (generateHTTPHandler env rw r).rw.status = some status ∧
          (generateHTTPHandler env rw r).rw.sentHeader (lit "Content-Type")
            = some (lit "application/json") ∧
          (generateHTTPHandler env rw r).log = [logLine status err] := by
      intro err status hstatus hout
      rw [hout]
      exact ⟨status, err, hstatus, writeErr_status _ _ _ hfresh,
        writeErr_contentType _ _ _ hfresh, rfl⟩
    rcases generateHTTPHandler_cases env rw r with ⟨_, hout⟩ | ⟨imgType, _, hrest⟩
    · exact Or.inr (Or.inl (hjson _ 400 (Or.inl rfl) hout))
    · rcases hrest with ⟨_, hout⟩ | ⟨_, err, _, hout⟩ | ⟨_, hout⟩ | ⟨diagram, _, hout⟩
      · exact Or.inr (Or.inl (hjson _ 400 (Or.inl rfl) hout))
      · exact Or.inr (Or.inl (hjson err 400 (Or.inl rfl) hout))
      · exact Or.inr (Or.inl (hjson _ 500 (Or.inr rfl) hout))
      · rw [hout]
        rcases applyScale_cases env rw r imgType diagram with
          ⟨hne, hbad, hreply⟩ | ⟨scale, _, _, _, _, _, hserve⟩
        · rw [hreply]
          exact Or.inr (Or.inr ⟨http.Error_status _ _ _ hfresh,
            http.Error_contentType _ _ _ hfresh, rfl, hne, hbad⟩)
        · rw [hserve]
          rcases generateAndServe_shape env rw imgType { diagram with scale := scale } hfresh with
            ⟨h200, _⟩ | ⟨h500, hct, err, hlog⟩
          · exact Or.inl h200
          · exact Or.inr (Or.inl ⟨500, err, Or.inr rfl, h500, hct, hlog⟩)

/-- Each of the eight errors at a concrete request: `type=gif`, a PUT, a GET
without data, `data=%25zz`, a POST whose body cannot be read, `scale=0`, a
failing generator, and an artifact that cannot be read. -/
theorem C7_error_responses_witness :
    ((generateHTTPHandler stubEnv freshWriter gifRequest).rw.status = some 400 ∧
      (generateHTTPHandler stubEnv freshWriter gifRequest).rw.sentHeader (lit "Content-Type")
        = some (lit "application/json")) ∧
    ((generateHTTPHandler stubEnv freshWriter putRequest).rw.status = some 400 ∧
      (generateHTTPHandler stubEnv freshWriter putRequest).rw.sentHeader (lit "Content-Type")
        = some (lit "application/json")) ∧
    ((generateHTTPHandler stubEnv freshWriter noDataRequest).rw.status = some 400 ∧
      (generateHTTPHandler stubEnv freshWriter noDataRequest).rw.sentHeader (lit "Content-Type")
        = some (lit "application/json")) ∧
    ((generateHTTPHandler stubEnv freshWriter badEscapeRequest).rw.status = some 400 ∧
      (generateHTTPHandler stubEnv freshWriter badEscapeRequest).rw.sentHeader
        (lit "Content-Type") = some (lit "application/json")) ∧
    ((generateHTTPHandler stubEnv freshWriter brokenBodyPost).rw.status = some 400 ∧
      (generateHTTPHandler stubEnv freshWriter brokenBodyPost).rw.sentHeader
        (lit "Content-Type") = some (lit "application/json")) ∧
    ((generateHTTPHandler stubEnv freshWriter invalidScaleRequest).rw
        = http.Error freshWriter invalidScaleMessage 400 ∧
      (generateHTTPHandler stubEnv freshWriter invalidScaleRequest).rw.status = some 400 ∧
      (generateHTTPHandler stubEnv freshWriter invalidScaleRequest).rw.sentHeader
        (lit "Content-Type") = some (lit "text/plain; charset=utf-8")) ∧
    ((generateHTTPHandler failingEnv freshWriter plainRequest).rw.status = some 500 ∧
      (generateHTTPHandler failingEnv freshWriter plainRequest).rw.sentHeader
        (lit "Content-Type") = some (lit "application/json")) ∧
    ((generateHTTPHandler unreadableEnv freshWriter plainRequest).rw.status = some 500 ∧
      (generateHTTPHandler unreadableEnv freshWriter plainRequest).rw.sentHeader
        (lit "Content-Type") = some (lit "application/json")) := by
  have hgif := (C7_error_responses stubEnv freshWriter gifRequest rfl).1 (by decide)
  have hput := ((C7_error_responses stubEnv freshWriter putRequest rfl).2.1
    (lit "svg") (by decide)).1 (by decide) (by decide)
  have hnodata := ((C7_error_responses stubEnv freshWriter noDataRequest rfl).2.1
    (lit "png") (by decide)).2.1 (by decide) (by decide)
  have hescape := ((C7_error_responses stubEnv freshWriter badEscapeRequest rfl).2.1
    (lit "svg") (by decide)).2.2.1 (lit "%zz") (by decide) (by decide) (by decide)
  have hbody := ((C7_error_responses stubEnv freshWriter brokenBodyPost rfl).2.1
    (lit "svg") (by decide)).2.2.2.1 (lit "unexpected EOF") (by decide) rfl
  have hscale := (((C7_error_responses stubEnv freshWriter invalidScaleRequest rfl).2.1
    (lit "svg") (by decide)).2.2.2.2
    { description := lit "a", imgType := lit "svg", scale := [], Output := [] } (by decide)).1
    (by decide) (Or.inr ⟨0, by decide, Or.inl (by decide)⟩)
  have hgen := ((((C7_error_responses failingEnv freshWriter plainRequest rfl).2.1
    (lit "svg") (by decide)).2.2.2.2
    { description := lit "a", imgType := lit "svg", scale := [], Output := [] } (by decide)).2
    { description := lit "a", imgType := lit "svg", scale := lit "10", Output := [] }
    (by decide)).1 (lit "boom") rfl
  have hread := ((((C7_error_responses unreadableEnv freshWriter plainRequest rfl).2.1
    (lit "svg") (by decide)).2.2.2.2
    { description := lit "a", imgType := lit "svg", scale := [], Output := [] } (by decide)).2
    { description := lit "a", imgType := lit "svg", scale := lit "10", Output := [] }
    (by decide)).2 (lit "open out.img: no such file or directory") rfl rfl
  exact ⟨⟨hgif.1, hgif.2.1⟩, ⟨hput.1, hput.2.1⟩, ⟨hnodata.1, hnodata.2.1⟩,
    ⟨hescape.1, hescape.2.1⟩, ⟨hbody.1, hbody.2.1⟩, ⟨hscale.1, hscale.2.1, hscale.2.2.1⟩,
    ⟨hgen.1, hgen.2.1⟩, ⟨hread.1, hread.2.1⟩⟩

/-- C8: the handler reports the first failing check in the order image type,
method and extraction, scale. On a response on which nothing was sent yet: an
unsupported `type` gets status 400 and the unsupported-image-type error,
whatever the rest of the request is; with a valid type, a method other than
GET and POST gets status 400 and the unexpected-method error; with a valid
type, an extraction that returns an error gets status 400 and that error; and
the plain-text invalid-scale reply is sent only when the type was valid and
the extraction returned a diagram without error. -/
theorem C8_check_order (env : Env) (rw : ResponseWriter) (r : Request)
    (hfresh : rw.status = none) :
    (selectImageType (r.Query.Get URLParamImageType) = none →
      (generateHTTPHandler env rw r).rw.status = some 400 ∧
      (generateHTTPHandler env rw r).log =
        [lit "[400] " ++ (lit "unsupported image type (" ++ r.Query.Get URLParamImageType ++
          lit ") use svg or png")]) ∧
    (∀ imgType, selectImageType (r.Query.Get URLParamImageType) = some imgType →
      r.Method ≠ lit "GET" → r.Method ≠ lit "POST" →
      (generateHTTPHandler env rw r).rw.status = some 400 ∧
      (generateHTTPHandler env rw r).log =
        [lit "[400] " ++ (lit "unexpected HTTP method " ++ r.Method)]) ∧
    (∀ imgType d err, selectImageType (r.Query.Get URLParamImageType) = some imgType →
      extractDiagram env.Quote r imgType = some (d, some err) →
      (generateHTTPHandler env rw r).rw.status = some 400 ∧
      (generateHTTPHandler env rw r).log = [lit "[400] " ++ err.Error]) ∧
    ((generateHTTPHandler env rw r).rw.sentHeader (lit "Content-Type")
        = some (lit "text/plain; charset=utf-8") →
      ∃ imgType diagram, selectImageType (r.Query.Get URLParamImageType) = some imgType ∧
        extractDiagram env.Quote r imgType = some (some diagram, none) ∧
        (generateHTTPHandler env rw r).rw.status = some 400) := by
  refine ⟨?_, ?_, ?_, ?_⟩
  · intro hsel
    simp only [generateHTTPHandler, hsel]
    refine ⟨writeErr_status _ _ _ hfresh, ?_⟩
    rw [writeErr_log, logLine_400]
    rfl
  · intro imgType hsel hget hpost
    simp only [generateHTTPHandler, hsel, dispatchMethod,
      extractDiagram_none env.Quote r imgType hget hpost]
    refine ⟨writeErr_status _ _ _ hfresh, ?_⟩
    rw [writeErr_log, logLine_400]
    rfl
  · intro imgType d err hsel hextract
    have hout : generateHTTPHandler env rw r = writeErr rw err 400 := by
      simp only [generateHTTPHandler, hsel, dispatchMethod, hextract]
      cases d <;> rfl
    rw [hout]
    refine ⟨writeErr_status _ _ _ hfresh, ?_⟩
    rw [writeErr_log, logLine_400]
  · intro hplain
    have hjson : lit "application/json" ≠ lit "text/plain; charset=utf-8" := by decide
    have hpng : lit "image/png" ≠ lit "text/plain; charset=utf-8" := by decide
    have hsvg : lit "image/svg+xml" ≠ lit "text/plain; charset=utf-8" := by decide
    have hno : ∀ (err : GoError) (status : Nat),
        generateHTTPHandler env rw r = writeErr rw err status → False := by
      intro err status hout
      rw [hout, writeErr_contentType _ _ _ hfresh] at hplain
      exact hjson (Option.some.inj hplain)
    rcases generateHTTPHandler_cases env rw r with ⟨_, hout⟩ | ⟨imgType, hsel, hrest⟩
    · exact (hno _ _ hout).elim
    · rcases hrest with ⟨_, hout⟩ | ⟨_, err, _, hout⟩ | ⟨_, hout⟩ | ⟨diagram, hextract, hout⟩
      · exact (hno _ _ hout).elim
      · exact (hno _ _ hout).elim
      · exact (hno _ _ hout).elim
      · refine ⟨imgType, diagram, hsel, hextract, ?_⟩
        rw [hout] at hplain ⊢
        rcases applyScale_cases env rw r imgType diagram with
          ⟨_, _, hreply⟩ | ⟨scale, _, _, _, _, _, hserve⟩
        · rw [hreply]
          exact http.Error_status _ _ _ hfresh
        · rw [hserve] at hplain
          rcases generateAndServe_shape env rw imgType { diagram with scale := scale } hfresh with
            ⟨_, hct | hct⟩ | ⟨_, hct, _⟩
          · rw [hct] at hplain
            exact (hpng (Option.some.inj hplain)).elim
          · rw [hct] at hplain
            exact (hsvg (Option.some.inj hplain)).elim
          · rw [hct] at hplain
            exact (hjson (Option.some.inj hplain)).elim

/-- A PUT with `type=gif`, a PUT with `type=png`, a GET without data and a GET
with data, each with `scale=abc`. -/
theorem C8_check_order_witness :
    ((generateHTTPHandler stubEnv freshWriter
        { Method := lit "PUT", RawQuery := lit "type=gif&scale=abc", Body := .ok [] }).rw.status
        = some 400 ∧
      (generateHTTPHandler stubEnv freshWriter
        { Method := lit "PUT", RawQuery := lit "type=gif&scale=abc", Body := .ok [] }).log
        = [lit "[400] " ++ (lit "unsupported image type (" ++ lit "gif" ++
            lit ") use svg or png")]) ∧
    ((generateHTTPHandler stubEnv freshWriter
        { Method := lit "PUT", RawQuery := lit "type=png&scale=abc", Body := .ok [] }).rw.status
        = some 400 ∧
      (generateHTTPHandler stubEnv freshWriter
        { Method := lit "PUT", RawQuery := lit "type=png&scale=abc", Body := .ok [] }).log
        = [lit "[400] " ++ (lit "unexpected HTTP method " ++ lit "PUT")]) ∧
    ((generateHTTPHandler stubEnv freshWriter
        { Method := lit "GET", RawQuery := lit "scale=abc", Body := .ok [] }).rw.status
        = some 400 ∧
      (generateHTTPHandler stubEnv freshWriter
        { Method := lit "GET", RawQuery := lit "scale=abc", Body := .ok [] }).log
        = [lit "[400] " ++ lit "missing data"]) ∧
    (∃ imgType diagram,
      selectImageType ((Request.Query
        { Method := lit "GET", RawQuery := lit "data=a&scale=abc", Body := .ok [] }).Get
        URLParamImageType) = some imgType ∧
      extractDiagram stubEnv.Quote
        { Method := lit "GET", RawQuery := lit "data=a&scale=abc", Body := .ok [] } imgType
        = some (some diagram, none) ∧
      (generateHTTPHandler stubEnv freshWriter
        { Method := lit "GET", RawQuery := lit "data=a&scale=abc", Body := .ok [] }).rw.status
        = some 400) :=
  ⟨(C8_check_order stubEnv freshWriter
      { Method := lit "PUT", RawQuery := lit "type=gif&scale=abc", Body := .ok [] } rfl).1
      (by decide),
   (C8_check_order stubEnv freshWriter
      { Method := lit "PUT", RawQuery := lit "type=png&scale=abc", Body := .ok [] } rfl).2.1
      (lit "png") (by decide) (by decide) (by decide),
   (C8_check_order stubEnv freshWriter
      { Method := lit "GET", RawQuery := lit "scale=abc", Body := .ok [] } rfl).2.2.1
      (lit "svg") none (.errorString (lit "missing data")) (by decide) (by decide),
   (C8_check_order stubEnv freshWriter
      { Method := lit "GET", RawQuery := lit "data=a&scale=abc", Body := .ok [] } rfl).2.2.2
      (by decide)⟩

/-- C9 at the failing input: with a generator that returns the error `boom`, the
handler answers 500 with the content type `application/json`, logs
`[500] could not generate diagram: boom`, and reads no file, but the body it
sends is `{"error":{}}`: the message is not in it. -/
theorem C9_generator_failure_body :
    (failingEnv.Generate
      { description := lit "a", imgType := lit "svg", scale := lit "10", Output := [] }).2
      = some (lit "boom") ∧
    (generateHTTPHandler failingEnv freshWriter plainRequest).generated
      = [{ description := lit "a", imgType := lit "svg", scale := lit "10", Output := [] }] ∧
    (generateHTTPHandler failingEnv freshWriter plainRequest).rw.status = some 500 ∧
    (generateHTTPHandler failingEnv freshWriter plainRequest).rw.sentHeader (lit "Content-Type")
      = some (lit "application/json") ∧
    (generateHTTPHandler failingEnv freshWriter plainRequest).log
      = [lit "[500] could not generate diagram: boom"] ∧
    (generateHTTPHandler failingEnv freshWriter plainRequest).read = [] ∧
    (generateHTTPHandler failingEnv freshWriter plainRequest).rw.body
      = lit "\x7b\"error\":\x7b\x7d\x7d" := by
  decide

/-- C10, as stated, fails: with `scale=` the scale parameter is present and its
value is not an integer, yet the generator is called. -/
theorem C10_counterexample_present_empty_scale :
    emptyScalePost.Query.Has URLParamImageScale = true ∧
    strconv.Atoi (emptyScalePost.Query.Get URLParamImageScale) = none ∧
    (generateHTTPHandler stubEnv freshWriter emptyScalePost).generated =
      [{ description := lit "a", imgType := lit "svg", scale := lit "10", Output := [] }] := by
  decide

/-- C10, amended: on a response on which nothing was sent yet, the generator is
called at most once, and only if the image type is `svg`, `png` or empty, the
method is GET or POST with an extraction that returned a diagram without
error, and the `scale` value is empty (absent or present) or an integer from 1
to 100; when the handler answers 400 the generator was not called; and every
diagram passed to it has the image type `svg` or `png` and a scale that
denotes an integer from 1 to 100. -/
theorem C10_generator_invocation (env : Env) (rw : ResponseWriter) (r : Request)
    (hfresh : rw.status = none) :
    (generateHTTPHandler env rw r).generated.length ≤ 1 ∧
    ((generateHTTPHandler env rw r).generated ≠ [] →
      (r.Query.Get URLParamImageType = lit "svg" ∨ r.Query.Get URLParamImageType = lit "png" ∨
        r.Query.Get URLParamImageType = []) ∧
      (r.Method = lit "GET" ∨ r.Method = lit "POST") ∧
      (∃ imgType diagram, selectImageType (r.Query.Get URLParamImageType) = some imgType ∧
        extractDiagram env.Quote r imgType = some (some diagram, none)) ∧
      (r.Query.Get URLParamImageScale = [] ∨
        ∃ n, strconv.Atoi (r.Query.Get URLParamImageScale) = some n ∧ 1 ≤ n ∧ n ≤ 100)) ∧
    ((generateHTTPHandler env rw r).rw.status = some 400 →
      (generateHTTPHandler env rw r).generated = []) ∧
    (∀ d ∈ (generateHTTPHandler env rw r).generated,
      (d.imgType = lit "svg" ∨ d.imgType = lit "png") ∧
      ∃ n, strconv.Atoi d.scale = some n ∧ 1 ≤ n ∧ n ≤ 100) := by
  have hquiet : ∀ (err : GoError) (status : Nat),
      generateHTTPHandler env rw r = writeErr rw err status →
      (generateHTTPHandler env rw r).generated = [] := by
    intro err status hout
    rw [hout]
    rfl
  have hdone : (generateHTTPHandler env rw r).generated = [] →
      (generateHTTPHandler env rw r).generated.length ≤ 1 ∧
      ((generateHTTPHandler env rw r).generated ≠ [] →
        (r.Query.Get URLParamImageType = lit "svg" ∨ r.Query.Get URLParamImageType = lit "png" ∨
          r.Query.Get URLParamImageType = []) ∧
        (r.Method = lit "GET" ∨ r.Method = lit "POST") ∧
        (∃ imgType diagram, selectImageType (r.Query.Get URLParamImageType) = some imgType ∧
          extractDiagram env.Quote r imgType = some (some diagram, none)) ∧
        (r.Query.Get URLParamImageScale = [] ∨
          ∃ n, strconv.Atoi (r.Query.Get URLParamImageScale) = some n ∧ 1 ≤ n ∧ n ≤ 100)) ∧
      ((generateHTTPHandler env rw r).rw.status = some 400 →
        (generateHTTPHandler env rw r).generated = []) ∧
      (∀ d ∈ (generateHTTPHandler env rw r).generated,
        (d.imgType = lit "svg" ∨ d.imgType = lit "png") ∧
        ∃ n, strconv.Atoi d.scale = some n ∧ 1 ≤ n ∧ n ≤ 100) := by
    intro hnil
    rw [hnil]
    exact ⟨by simp, fun h => absurd rfl h, fun _ => rfl, fun d hd => absurd hd (List.not_mem_nil d)⟩
  rcases generateHTTPHandler_cases env rw r with ⟨_, hout⟩ | ⟨imgType, hsel, hrest⟩
  · exact hdone (hquiet _ _ hout)
  · rcases hrest with ⟨_, hout⟩ | ⟨_, err, _, hout⟩ | ⟨_, hout⟩ | ⟨diagram, hextract, hout⟩
    · exact hdone (hquiet _ _ hout)
    · exact hdone (hquiet _ _ hout)
    · exact hdone (hquiet _ _ hout)
    · rcases applyScale_cases env rw r imgType diagram with
        ⟨_, _, hreply⟩ | ⟨scale, n, hn, h1, h100, hwhich, hserve⟩
      · apply hdone
        rw [hout, hreply]
      · have hgen : (generateHTTPHandler env rw r).generated = [{ diagram with scale := scale }] := by
          rw [hout, hserve]
          exact generateAndServe_generated _ _ _ _
        have hsome := selectImageType_some _ _ hsel
        have hex := extractDiagram_some _ _ _ _ hextract
        refine ⟨by rw [hgen]; simp, ?_, ?_, ?_⟩
        · intro _
          refine ⟨?_, hex.1, ⟨imgType, diagram, hsel, hextract⟩, ?_⟩
          · rcases hsome.2 with ⟨ht, _⟩ | ⟨ht | ht, _⟩
            · exact Or.inr (Or.inl ht)
            · exact Or.inl ht
            · exact Or.inr (Or.inr ht)
          · rcases hwhich with ⟨hempty, _⟩ | ⟨_, hscale⟩
            · exact Or.inl hempty
            · exact Or.inr ⟨n, by rw [← hscale]; exact hn, h1, h100⟩
        · intro h400
          rw [hout, hserve] at h400
          rcases generateAndServe_shape env rw imgType { diagram with scale := scale } hfresh with
            ⟨h200, _⟩ | ⟨h500, _⟩
          · rw [h200] at h400
            cases h400
          · rw [h500] at h400
            cases h400
        · intro d hd
          rw [hgen] at hd
          have hd1 : d = { diagram with scale := scale } := by simpa using hd
          subst hd1
          refine ⟨?_, n, hn, h1, h100⟩
          show diagram.imgType = lit "svg" ∨ diagram.imgType = lit "png"
          rw [hex.2]
          rcases hsome.1 with h | h
          · exact Or.inr h
          · exact Or.inl h

/-- The request `GET /generate?data=a&type=png&scale=7` and a request with
`scale=0`. -/
theorem C10_generator_invocation_witness :
    ((generateHTTPHandler stubEnv freshWriter
        { Method := lit "GET", RawQuery := lit "data=a&type=png&scale=7", Body := .ok [] }).generated.length
        ≤ 1 ∧
      (∀ d ∈ (generateHTTPHandler stubEnv freshWriter
        { Method := lit "GET", RawQuery := lit "data=a&type=png&scale=7", Body := .ok [] }).generated,
        (d.imgType = lit "svg" ∨ d.imgType = lit "png") ∧
        ∃ n, strconv.Atoi d.scale = some n ∧ 1 ≤ n ∧ n ≤ 100)) ∧
    (generateHTTPHandler stubEnv freshWriter
        { Method := lit "GET", RawQuery := lit "data=a&scale=0", Body := .ok [] }).generated = [] :=
  ⟨⟨(C10_generator_invocation stubEnv freshWriter
        { Method := lit "GET", RawQuery := lit "data=a&type=png&scale=7", Body := .ok [] } rfl).1,
    (C10_generator_invocation stubEnv freshWriter
        { Method := lit "GET", RawQuery := lit "data=a&type=png&scale=7", Body := .ok [] }
        rfl).2.2.2⟩,
   (C10_generator_invocation stubEnv freshWriter
        { Method := lit "GET", RawQuery := lit "data=a&scale=0", Body := .ok [] } rfl).2.2.1
      (by decide)⟩
